import Mathlib

set_option maxRecDepth 40000

/-! Verification development for the `workflow-examples` incident-response
repository.  The Python source (pydantic data models that render shell-command
strings, Slack Block Kit messages and AI prompts, plus small HTTP helper
functions) is shallowly embedded below: each Python class becomes a Lean
structure, each render method a Lean function.  Methods that mutate `self`
are embedded as explicit state-passing functions; methods that can raise
return `Except RenderError`.  All definitions are executable. -/

namespace WorkflowExamples

/-! Character and string helpers.  The quote and backslash characters are
named to keep string literals readable. -/

def dquoteC : Char := Char.ofNat 34

def squoteC : Char := Char.ofNat 39

def backslashC : Char := Char.ofNat 92

/-- Character-wise lower casing, modelling Python `str.lower()` on the
ASCII strings used by the repository. -/
def strLower (s : String) : String := ⟨s.data.map Char.toLower⟩

/-- Character-wise upper casing, modelling Python `str.upper()` on ASCII. -/
def strUpper (s : String) : String := ⟨s.data.map Char.toUpper⟩

def titleCaseGo : Bool → List Char → List Char
  | _, [] => []
  | prevAlpha, c :: cs =>
    (if c.isAlpha then (if prevAlpha then c.toLower else c.toUpper) else c) ::
      titleCaseGo c.isAlpha cs

/-- Python `str.title()` on ASCII text: the first letter of every
alphabetic run is upper-cased, the rest lower-cased.  Character-for-character,
so it preserves length, as Python does on the ASCII inputs used here. -/
def titleCase (s : String) : String := ⟨titleCaseGo false s.data⟩

/-- Python `",".join(xs)`. -/
def joinComma (xs : List String) : String := String.intercalate "," xs

/-- A string occurs (contiguously) inside another string. -/
def occursIn (needle hay : String) : Prop := ∃ p s, hay = p ++ needle ++ s

-- ===========================================================================
-- models/models.py : SupportedDatasets and DatadogMetrics
-- ===========================================================================

/-- Embedding of the Python annotation `Union[List[str], str]`. -/
inductive StrOrList where
  | list (xs : List String)
  | str (s : String)
deriving DecidableEq

/-- `SupportedDatasets` (models/models.py).  `datasets: Union[List[str], str] = None`
is an optional union field. -/
structure SupportedDatasets where
  datasets : Option StrOrList := none
deriving DecidableEq

/-- The default dataset list assigned by `SupportedDatasets.get_command`
when `datasets` is `None`. -/
def SupportedDatasets.defaultDatasets : List String :=
  ["api-logs", "server-logs", "application-logs", "error-logs", "trace-logs",
   "audit-logs", "security-logs", "performance-logs"]

/-- The f-string template returned by `SupportedDatasets.get_command`,
as a function of the (already comma-joined) `self.datasets` value. -/
def SupportedDatasets.script (ds : String) : String :=
  "\n                echo \"📊 FETCHING OBSERVE SUPPORTED DATASET IDS\"\n                echo \"==========================================\"\n                SUPPORTED_DATASETS=\x27"
  ++ ds ++
  "\x27\n                echo \"Available Dataset IDs for Observe: $SUPPORTED_DATASETS\"\n                echo \"✅ Observe supported dataset IDs retrieved successfully\"\n            "

/-- `SupportedDatasets.get_command` (models/models.py lines 234-257).  The
Python method mutates `self`: a `None` value of `datasets` is replaced by the
default list, and a list value is replaced by its comma-joined string, before
the template is rendered.  The embedding passes the state explicitly and
returns the rendered string together with the post-call state. -/
def SupportedDatasets.get_command (m : SupportedDatasets) : String × SupportedDatasets :=
  let ds : String :=
    match m.datasets with
    | none => joinComma SupportedDatasets.defaultDatasets
    | some (.list xs) => joinComma xs
    | some (.str s) => s
  (SupportedDatasets.script ds, { datasets := some (.str ds) })

/-- `DatadogMetrics` (models/models.py).  `metrics: Union[List[str], str] = None`. -/
structure DatadogMetrics where
  metrics : Option StrOrList := none
deriving DecidableEq

/-- The default metric list assigned by `DatadogMetrics.get_command` when
`metrics` is `None`. -/
def DatadogMetrics.defaultMetrics : List String :=
  ["system.cpu.usage", "system.memory.usage", "kubernetes.cpu.usage",
   "kubernetes.memory.usage", "kubernetes.pods.running", "kubernetes.pods.failed",
   "nginx.requests.rate", "nginx.response.time", "kong.requests.rate",
   "kong.response.time", "kong.errors.rate", "application.response.time",
   "application.error.rate", "application.throughput", "jvm.heap.usage",
   "jvm.gc.time", "trace.servlet.request.errors", "trace.servlet.request.hits",
   "trace.servlet.request"]

/-- The f-string template returned by `DatadogMetrics.get_command`.  The first
echo line contains the replacement character U+FFFD exactly as in the source. -/
def DatadogMetrics.script (ms : String) : String :=
  "\n                echo \"�? FETCHING DATADOG METRICS CONFIGURATION\"\n                echo \"=========================================\"\n                DD_METRICS=\x27"
  ++ ms ++
  "\x27\n                echo \"Available Datadog Metrics: $DD_METRICS\"\n                echo \"✅ Datadog metrics configuration retrieved successfully\"\n            "

/-- `DatadogMetrics.get_command` (models/models.py lines 277-311), with the
same self-mutation pattern as `SupportedDatasets.get_command`. -/
def DatadogMetrics.get_command (m : DatadogMetrics) : String × DatadogMetrics :=
  let ms : String :=
    match m.metrics with
    | none => joinComma DatadogMetrics.defaultMetrics
    | some (.list xs) => joinComma xs
    | some (.str s) => s
  (DatadogMetrics.script ms, { metrics := some (.str ms) })

-- ===========================================================================
-- models/models.py : ValidateIncident
-- ===========================================================================

/-- `ValidateIncident` (models/models.py lines 121-131): eight string fields. -/
structure ValidateIncident where
  incident_id : String
  incident_title : String
  incident_severity : String
  affected_services : String
  incident_priority : String
  incident_owner : String
  incident_source : String
  customer_impact : String
deriving DecidableEq

/-! The f-string template of `ValidateIncident.get_command` (models/models.py
lines 132-180), cut at the fourteen interpolation slots.  `vi0` … `vi14` are
the literal chunks between the slots, in source order. -/

def vi0 : String :=
  "echo \"🔍 VALIDATING INCIDENT PARAMETERS\"\n                echo \"=================================\"\n                VALIDATION_PASSED=true\n                MISSING_PARAMS=\"\"\n                if [ -z \""

def vi1 : String :=
  "\" ]; then\n                  echo \"❌ ERROR: incident_id is required\"\n                  VALIDATION_PASSED=false\n                  MISSING_PARAMS=\"$\x7bMISSING_PARAMS\x7d incident_id\"\n                fi\n                if [ -z \""

def vi2 : String :=
  "\" ]; then\n                  echo \"❌ ERROR: incident_title is required\"\n                  VALIDATION_PASSED=false\n                  MISSING_PARAMS=\"$\x7bMISSING_PARAMS\x7d incident_title\"\n                fi\n                if [ -z \""

def vi3 : String :=
  "\" ]; then\n                  echo \"❌ ERROR: incident_severity is required\"\n                  VALIDATION_PASSED=false\n                  MISSING_PARAMS=\"$\x7bMISSING_PARAMS\x7d incident_severity\"\n                fi\n                if [ -z \""

def vi4 : String :=
  "\" ]; then\n                  echo \"⚠️ WARNING: affected_services not provided - will create validation agent\"\n                fi\n                case \""

def vi5 : String :=
  "\" in\n                  \"critical\"|\"high\"|\"medium\"|\"low\")\n                    echo \"✅ Severity "

def vi6 : String :=
  " is valid\"\n                    ;;\n                  *)\n                    echo \"❌ ERROR: Invalid severity "

def vi7 : String :=
  ". Must be: critical, high, medium, or low\"\n                    VALIDATION_PASSED=false\n                    MISSING_PARAMS=\"$\x7bMISSING_PARAMS\x7d valid_severity\"\n                    ;;\n                esac\n                if [ \"$VALIDATION_PASSED\" = \"true\" ]; then\n                  echo \"📋 INCIDENT METADATA:\"\n                  echo \"  ID: "

def vi8 : String := "\"\n                  echo \"  Title: "

def vi9 : String := "\"\n                  echo \"  Severity: "

def vi10 : String := "\"\n                  echo \"  Priority: "

def vi11 : String := "\"\n                  echo \"  Owner: "

def vi12 : String := "\"\n                  echo \"  Source: "

def vi13 : String :=
  "\"\n                  echo \"  Affected Services: $\x7baffected_services:-TBD via agent\x7d\"\n                  echo \"  Customer Impact: "

def vi14 : String :=
  "\"\n                  echo \"\"\n                  echo \"✅ Incident validation completed successfully\"\n                else\n                  echo \"❌ Validation failed. Missing parameters: $\x7bMISSING_PARAMS\x7d\"\n                  echo \"⚠️ Continuing workflow to handle validation failure...\"\n                fi"

/-- `ValidateIncident.get_command` (models/models.py lines 132-180): the
template above with the eight fields interpolated at the fourteen slots,
in source order. -/
def ValidateIncident.get_command (v : ValidateIncident) : String :=
  vi0 ++ v.incident_id ++ vi1 ++ v.incident_title ++ vi2 ++ v.incident_severity ++
  vi3 ++ v.affected_services ++ vi4 ++ v.incident_severity ++ vi5 ++
  v.incident_severity ++ vi6 ++ v.incident_severity ++ vi7 ++ v.incident_id ++
  vi8 ++ v.incident_title ++ vi9 ++ v.incident_severity ++ vi10 ++
  v.incident_priority ++ vi11 ++ v.incident_owner ++ vi12 ++ v.incident_source ++
  vi13 ++ v.customer_impact ++ vi14

-- ===========================================================================
-- models/models.py : CopilotContextData
-- ===========================================================================

/-- `CopilotContextData` (models/models.py lines 332-345): four incident
context fields, six prompt fields defaulting to the empty string, and the two
monitoring configuration fields. -/
structure CopilotContextData where
  incident_id : String
  incident_title : String
  incident_severity : String
  affected_services : String
  copilot_prompt : String := ""
  deep_dive_prompt : String := ""
  apply_fixes_prompt : String := ""
  monitoring_prompt : String := ""
  na_followup_prompt : String := ""
  eu_followup_prompt : String := ""
  datadog_metrics_config : String
  observe_supported_ds_ids : String
deriving DecidableEq

/-- The `copilot_prompt` text assembled by `CopilotContextData.get_prompt`. -/
def copilotPromptText (c : CopilotContextData) : String :=
  "You are an INCIDENT RESPONDER AGENT with access to kubectl, Datadog, and Observe. INCIDENT CONTEXT: ID="
  ++ c.incident_id ++ ", Title=\x27" ++ c.incident_title ++ "\x27, Severity="
  ++ c.incident_severity ++ ", Services=" ++ c.affected_services ++
  ". I will now gather relevant logs and metrics from: Datadog metrics ("
  ++ c.datadog_metrics_config ++ ") and Observe datasets ("
  ++ c.observe_supported_ds_ids ++
  "). Please wait while I collect this data... Once complete, I\x27ll ask what specific aspect you\x27d like to investigate. "

/-- The `deep_dive_prompt` text assembled by `CopilotContextData.get_prompt`. -/
def deepDivePromptText (c : CopilotContextData) : String :=
  "You are an INCIDENT RESPONDER AGENT performing deep analysis. INCIDENT: "
  ++ c.incident_id ++ " - " ++ c.incident_title ++
  ". I\x27m gathering comprehensive data from Datadog metrics: "
  ++ c.datadog_metrics_config ++ " and Observe datasets: "
  ++ c.observe_supported_ds_ids ++ ". Analyzing affected services: "
  ++ c.affected_services ++
  ". I\x27ll provide root cause analysis, performance metrics, and actionable recommendations. Collecting data now..."

/-- The `apply_fixes_prompt` text assembled by `CopilotContextData.get_prompt`. -/
def applyFixesPromptText (c : CopilotContextData) : String :=
  "You are an INCIDENT RESPONDER AGENT ready to apply remediation. INCIDENT: "
  ++ c.incident_id ++ " - " ++ c.incident_title ++ ". Services: "
  ++ c.affected_services ++
  ". I have access to kubectl for applying fixes. Let me review the investigation findings first... Once ready, I\x27ll present the available fixes and ask which ones you\x27d like me to apply."

/-- The `monitoring_prompt` text assembled by `CopilotContextData.get_prompt`. -/
def monitoringPromptText (c : CopilotContextData) : String :=
  "You are an INCIDENT RESPONDER AGENT monitoring recovery. INCIDENT: "
  ++ c.incident_id ++ " - " ++ c.incident_title ++ ". Services: "
  ++ c.affected_services ++ ". I\x27m tracking recovery using Datadog metrics: "
  ++ c.datadog_metrics_config ++
  ". Let me check current service health and metrics... I\x27ll then provide status updates and verify applied fixes."

/-- The `na_followup_prompt` text assembled by `CopilotContextData.get_prompt`. -/
def naFollowupPromptText (c : CopilotContextData) : String :=
  "You are an INCIDENT RESPONDER AGENT focusing on NA PRODUCTION. INCIDENT: "
  ++ c.incident_id ++ " - " ++ c.incident_title ++
  ". Region: North America. I have access to kubectl (NA cluster), Datadog metrics: "
  ++ c.datadog_metrics_config ++ ", and Observe datasets: "
  ++ c.observe_supported_ds_ids ++
  ". Let me gather NA-specific logs and metrics first... What aspect of the NA cluster would you like me to investigate?"

/-- The `eu_followup_prompt` text assembled by `CopilotContextData.get_prompt`.
Its closing sentence mentions the NA cluster, exactly as in the source. -/
def euFollowupPromptText (c : CopilotContextData) : String :=
  "You are an INCIDENT RESPONDER AGENT focusing on EU PRODUCTION. INCIDENT: "
  ++ c.incident_id ++ " - " ++ c.incident_title ++
  ". Region: Europe. I have access to kubectl (EU cluster), Datadog metrics: "
  ++ c.datadog_metrics_config ++ ", and Observe datasets: "
  ++ c.observe_supported_ds_ids ++
  ". Let me gather NA-specific logs and metrics first... What aspect of the NA cluster would you like me to investigate?"

/-- `CopilotContextData.get_prompt` (models/models.py lines 347-390).  The
Python method returns `None` and stores the six generated prompts into the
prompt fields of the instance; the embedding returns the post-call state. -/
def CopilotContextData.get_prompt (c : CopilotContextData) : CopilotContextData :=
  { c with
    copilot_prompt := copilotPromptText c
    deep_dive_prompt := deepDivePromptText c
    apply_fixes_prompt := applyFixesPromptText c
    monitoring_prompt := monitoringPromptText c
    na_followup_prompt := naFollowupPromptText c
    eu_followup_prompt := euFollowupPromptText c }

-- ===========================================================================
-- message_blocks/blocks.py : Slack Block Kit data model
-- ===========================================================================

/-- JSON values, the target of pydantic `model_dump` on the message models. -/
inductive Json where
  | str (s : String)
  | bool (b : Bool)
  | num (n : Int)
  | arr (xs : List Json)
  | obj (members : List (String × Json))

/-- `PlainTextObject` (blocks.py): `type` is always `"plain_text"` and is kept
implicit in the embedding; the serializer below emits the tag. -/
structure PlainTextObject where
  text : String
  emoji : Option Bool := none
deriving DecidableEq

/-- `MarkdownTextObject` (blocks.py): `type` is always `"mrkdwn"`. -/
structure MarkdownTextObject where
  text : String
  verbatim : Option Bool := none
deriving DecidableEq

/-- `TextObject = Union[PlainTextObject, MarkdownTextObject]` (blocks.py). -/
inductive TextObject where
  | plain (p : PlainTextObject)
  | mrkdwn (m : MarkdownTextObject)
deriving DecidableEq

/-- `ButtonStyle` (blocks.py lines 92-95): the enum defines exactly the two
members `PRIMARY = "primary"` and `DANGER = "danger"`. -/
inductive ButtonStyle where
  | PRIMARY
  | DANGER
deriving DecidableEq

def ButtonStyle.value : ButtonStyle → String
  | .PRIMARY => "primary"
  | .DANGER => "danger"

/-- Python attribute lookup on the `ButtonStyle` enum class: `ButtonStyle.X`
succeeds exactly for the declared members and raises `AttributeError`
otherwise.  `messages.py` refers to `ButtonStyle.DEFAULT`, which is not a
member. -/
def ButtonStyle.attr (name : String) : Option ButtonStyle :=
  if name = "PRIMARY" then some .PRIMARY
  else if name = "DANGER" then some .DANGER
  else none

/-- `ButtonElement` (blocks.py): `type` is always `"button"`. -/
structure ButtonElement where
  text : PlainTextObject
  action_id : Option String := none
  url : Option String := none
  value : Option String := none
  style : Option ButtonStyle := none
  confirm : Option Json := none
  accessibility_label : Option String := none

/-- `ImageElement` (blocks.py): `type` is always `"image"`. -/
structure ImageElement where
  image_url : String
  alt_text : String
deriving DecidableEq

/-- `HeaderBlock` (blocks.py lines 239-244): `type` is always `"header"` and
`text` is a `PlainTextObject`. -/
structure HeaderBlock where
  text : PlainTextObject
  block_id : Option String := none
deriving DecidableEq

/-- `SectionBlock` (blocks.py): `type` is always `"section"`. -/
structure SectionBlock where
  text : Option TextObject := none
  fields : Option (List TextObject) := none
  accessory : Option Json := none
  block_id : Option String := none

/-- `DividerBlock` (blocks.py): `type` is always `"divider"`. -/
structure DividerBlock where
  block_id : Option String := none
deriving DecidableEq

/-- `ActionsBlock` (blocks.py lines 306-311): `type` is always `"actions"`
and `elements` is a list of `ButtonElement`. -/
structure ActionsBlock where
  elements : List ButtonElement
  block_id : Option String := none

/-- Elements of a `ContextBlock`: `Union[TextObject, ImageElement]`. -/
inductive ContextElement where
  | text (t : TextObject)
  | image (i : ImageElement)
deriving DecidableEq

/-- `ContextBlock` (blocks.py): `type` is always `"context"`. -/
structure ContextBlock where
  elements : List ContextElement
  block_id : Option String := none
deriving DecidableEq

/-- `Block = Union[HeaderBlock, SectionBlock, DividerBlock, ActionsBlock,
ContextBlock]` (blocks.py). -/
inductive Block where
  | header (b : HeaderBlock)
  | section (b : SectionBlock)
  | divider (b : DividerBlock)
  | actions (b : ActionsBlock)
  | context (b : ContextBlock)

/-- `Attachment` (blocks.py): every field is optional.  The legacy `Dict`
valued fields are embedded as opaque `Json` values. -/
structure Attachment where
  color : Option String := none
  blocks : Option (List Block) := none
  fallback : Option String := none
  author_name : Option String := none
  author_link : Option String := none
  author_icon : Option String := none
  title : Option String := none
  title_link : Option String := none
  text : Option String := none
  fields : Option (List Json) := none
  image_url : Option String := none
  thumb_url : Option String := none
  footer : Option String := none
  footer_icon : Option String := none
  ts : Option Int := none
  actions : Option (List Json) := none
  callback_id : Option String := none
  attachment_type : Option String := none

/-- `Message` (blocks.py lines 426-440): `channel` and `text` are required,
every other field is optional with default `None`. -/
structure Message where
  channel : String
  text : String
  attachments : Option (List Attachment) := none
  blocks : Option (List Block) := none
  thread_ts : Option String := none
  mrkdwn : Option Bool := none
  username : Option String := none
  icon_emoji : Option String := none
  icon_url : Option String := none
  parse : Option String := none
  link_names : Option Bool := none
  unfurl_links : Option Bool := none
  unfurl_media : Option Bool := none

-- ===========================================================================
-- pydantic `model_dump(exclude_none=True)` serialization of the block model
-- ===========================================================================

/-- One dictionary entry of `model_dump(exclude_none=True)`: an optional
field contributes its key exactly when its value is not `None`. -/
def optEntry (k : String) (v : Option Json) : List (String × Json) :=
  match v with
  | none => []
  | some j => [(k, j)]

def PlainTextObject.toJson (p : PlainTextObject) : Json :=
  .obj ([("type", .str "plain_text"), ("text", .str p.text)]
    ++ optEntry "emoji" (p.emoji.map Json.bool))

def MarkdownTextObject.toJson (m : MarkdownTextObject) : Json :=
  .obj ([("type", .str "mrkdwn"), ("text", .str m.text)]
    ++ optEntry "verbatim" (m.verbatim.map Json.bool))

def TextObject.toJson : TextObject → Json
  | .plain p => p.toJson
  | .mrkdwn m => m.toJson

def ButtonElement.toJson (b : ButtonElement) : Json :=
  .obj ([("type", .str "button"), ("text", b.text.toJson)]
    ++ optEntry "action_id" (b.action_id.map Json.str)
    ++ optEntry "url" (b.url.map Json.str)
    ++ optEntry "value" (b.value.map Json.str)
    ++ optEntry "style" (b.style.map fun s => Json.str s.value)
    ++ optEntry "confirm" b.confirm
    ++ optEntry "accessibility_label" (b.accessibility_label.map Json.str))

def ImageElement.toJson (i : ImageElement) : Json :=
  .obj [("type", .str "image"), ("image_url", .str i.image_url),
        ("alt_text", .str i.alt_text)]

def ContextElement.toJson : ContextElement → Json
  | .text t => t.toJson
  | .image i => i.toJson

def Block.toJson : Block → Json
  | .header b => .obj ([("type", .str "header"), ("text", b.text.toJson)]
      ++ optEntry "block_id" (b.block_id.map Json.str))
  | .section b => .obj ([("type", .str "section")]
      ++ optEntry "text" (b.text.map TextObject.toJson)
      ++ optEntry "fields" (b.fields.map fun fs => Json.arr (fs.map TextObject.toJson))
      ++ optEntry "accessory" b.accessory
      ++ optEntry "block_id" (b.block_id.map Json.str))
  | .divider b => .obj ([("type", .str "divider")]
      ++ optEntry "block_id" (b.block_id.map Json.str))
  | .actions b => .obj ([("type", .str "actions"),
      ("elements", Json.arr (b.elements.map ButtonElement.toJson))]
      ++ optEntry "block_id" (b.block_id.map Json.str))
  | .context b => .obj ([("type", .str "context"),
      ("elements", Json.arr (b.elements.map ContextElement.toJson))]
      ++ optEntry "block_id" (b.block_id.map Json.str))

def Attachment.toJson (a : Attachment) : Json :=
  .obj (optEntry "color" (a.color.map Json.str)
    ++ optEntry "blocks" (a.blocks.map fun bs => Json.arr (bs.map Block.toJson))
    ++ optEntry "fallback" (a.fallback.map Json.str)
    ++ optEntry "author_name" (a.author_name.map Json.str)
    ++ optEntry "author_link" (a.author_link.map Json.str)
    ++ optEntry "author_icon" (a.author_icon.map Json.str)
    ++ optEntry "title" (a.title.map Json.str)
    ++ optEntry "title_link" (a.title_link.map Json.str)
    ++ optEntry "text" (a.text.map Json.str)
    ++ optEntry "fields" (a.fields.map Json.arr)
    ++ optEntry "image_url" (a.image_url.map Json.str)
    ++ optEntry "thumb_url" (a.thumb_url.map Json.str)
    ++ optEntry "footer" (a.footer.map Json.str)
    ++ optEntry "footer_icon" (a.footer_icon.map Json.str)
    ++ optEntry "ts" (a.ts.map Json.num)
    ++ optEntry "actions" (a.actions.map Json.arr)
    ++ optEntry "callback_id" (a.callback_id.map Json.str)
    ++ optEntry "attachment_type" (a.attachment_type.map Json.str))

/-- `Message.to_dict` (blocks.py lines 442-444): `model_dump(exclude_none=True)`
in the declared field order.  Keys of `None`-valued optional fields are absent. -/
def Message.to_dict (m : Message) : List (String × Json) :=
  [("channel", Json.str m.channel), ("text", Json.str m.text)]
  ++ optEntry "attachments" (m.attachments.map fun xs => Json.arr (xs.map Attachment.toJson))
  ++ optEntry "blocks" (m.blocks.map fun xs => Json.arr (xs.map Block.toJson))
  ++ optEntry "thread_ts" (m.thread_ts.map Json.str)
  ++ optEntry "mrkdwn" (m.mrkdwn.map Json.bool)
  ++ optEntry "username" (m.username.map Json.str)
  ++ optEntry "icon_emoji" (m.icon_emoji.map Json.str)
  ++ optEntry "icon_url" (m.icon_url.map Json.str)
  ++ optEntry "parse" (m.parse.map Json.str)
  ++ optEntry "link_names" (m.link_names.map Json.bool)
  ++ optEntry "unfurl_links" (m.unfurl_links.map Json.bool)
  ++ optEntry "unfurl_media" (m.unfurl_media.map Json.bool)

/-- The keys of `Message.to_dict`. -/
def Message.dictKeys (m : Message) : List String := (m.to_dict).map Prod.fst

-- ===========================================================================
-- models/messages.py : message builders that always return
-- ===========================================================================

/-- `PostIncidentAlertMessage` (messages.py lines 99-108). -/
structure PostIncidentAlertMessage where
  incident_title : String
  incident_id : String
  incident_severity : String
  severity_emoji : String
  incident_priority : String
  affected_services : String
  incident_body : String
  incident_url : String
  channel : String

/-- `PostIncidentAlertMessage.to_message` (messages.py lines 110-151). -/
def PostIncidentAlertMessage.to_message (m : PostIncidentAlertMessage) : Message :=
  { channel := m.channel
    text := "🚨 INCIDENT: " ++ m.incident_title
    blocks := some [
      .header { text := { text := "🚨 Received incident to traige in PRODUCTION!",
                          emoji := some true } },
      .section { text := some (.mrkdwn { text := "*" ++ m.incident_title ++ "*" }) },
      .section { fields := some [
        .mrkdwn { text := "*ID:* " ++ m.incident_id },
        .mrkdwn { text := "*Severity:* " ++ m.severity_emoji ++ " " ++ m.incident_severity },
        .mrkdwn { text := "*Priority:* " ++ m.incident_priority },
        .mrkdwn { text := "*Services:* " ++ m.affected_services }] },
      .divider {},
      .section { text := some (.mrkdwn { text := m.incident_body }) },
      .divider {},
      .actions { elements := [
        { text := { text := "📊 View on Datadog", emoji := some true },
          url := some m.incident_url,
          style := some .PRIMARY }] },
      .context { elements := [
        .text (.mrkdwn { text := "⚡ AI investigation will begin automatically in a few seconds..." })] }] }

/-- `InvestigationProgressMessage` (messages.py lines 168-175). -/
structure InvestigationProgressMessage where
  channel : String
  incident_id : String
  incident_title : String
  incident_severity : String
  affected_services : String
  timeout_minutes : String

/-- `InvestigationProgressMessage.to_message` (messages.py lines 177-205). -/
def InvestigationProgressMessage.to_message (m : InvestigationProgressMessage) : Message :=
  { channel := m.channel
    text := "🔍 AI Investigation Started"
    blocks := some [
      .section { text := some (.mrkdwn { text := "🔍 *AI Investigation Started*\n" ++ m.incident_title }) },
      .context { elements := [
        .text (.mrkdwn { text := "ID: " ++ m.incident_id ++ " | Severity: " ++
          m.incident_severity ++ " | Services: " ++ m.affected_services })] },
      .divider {},
      .section { fields := some [
        .mrkdwn { text := "*🇺🇸 NA Agent*\n🟢 Analyzing..." },
        .mrkdwn { text := "*🇪🇺 EU Agent*\n🟢 Analyzing..." }] },
      .context { elements := [
        .text (.mrkdwn { text := "⏱️ ETA: ~" ++ m.timeout_minutes ++
          " minutes | 💡 Partial results will be provided even if steps fail" })] }] }

/-- `DeploymentNotificationMessage` (messages.py lines 285-295). -/
structure DeploymentNotificationMessage where
  channel : String
  service_name : String
  version : String
  environment : String
  deployment_status : String
  deploy_time : String
  deployed_by : String
  commit_hash : String
  rollback_available : Bool := true

/-- The `status_emoji` dictionary lookup of
`DeploymentNotificationMessage.to_message`, default `"🔄"`. -/
def deploymentStatusEmoji (status : String) : String :=
  if status = "success" then "✅"
  else if status = "failed" then "❌"
  else if status = "in_progress" then "🔄"
  else "🔄"

/-- `DeploymentNotificationMessage.to_message` (messages.py lines 297-341):
the actions block with the Rollback and View Logs buttons is appended exactly
when `deployment_status == "failed" and rollback_available`. -/
def DeploymentNotificationMessage.to_message (m : DeploymentNotificationMessage) : Message :=
  let status_emoji := deploymentStatusEmoji m.deployment_status
  let base : List Block := [
    .header { text := { text := status_emoji ++ " Deployment " ++ titleCase m.deployment_status,
                        emoji := some true } },
    .section { fields := some [
      .mrkdwn { text := "*Service:*\n" ++ m.service_name },
      .mrkdwn { text := "*Version:*\n" ++ m.version },
      .mrkdwn { text := "*Environment:*\n" ++ m.environment },
      .mrkdwn { text := "*Deployed by:*\n" ++ m.deployed_by }] },
    .section { text := some (.mrkdwn { text := "*Commit:* `" ++ m.commit_hash ++
      "`\n*Time:* " ++ m.deploy_time }) }]
  let blocks := base ++
    (if m.deployment_status = "failed" ∧ m.rollback_available = true then
      [Block.actions { elements := [
        { text := { text := "🔄 Rollback", emoji := some true }, style := some .DANGER },
        { text := { text := "📋 View Logs", emoji := some true }, style := some .PRIMARY }] }]
     else [])
  { channel := m.channel
    text := status_emoji ++ " Deployment " ++ m.deployment_status ++ ": " ++ m.service_name
    blocks := some blocks }

-- ===========================================================================
-- models/messages.py : message builders that can raise
-- ===========================================================================

/-- Runtime errors raised by the message builders: attribute lookup failure
on the `ButtonStyle` enum, and division by zero. -/
inductive RenderError where
  | attributeError (name : String)
  | zeroDivisionError
deriving DecidableEq

/-- Python `ButtonStyle.<name>` as an expression: raises `AttributeError`
when `name` is not a member of the enum. -/
def buttonStyleAttr (name : String) : Except RenderError ButtonStyle :=
  match ButtonStyle.attr name with
  | some s => .ok s
  | none => .error (.attributeError name)

/-- The per-service metrics dictionary of `HealthCheckStatusMessage`:
`{status, response_time, uptime}` entries, any of which may be missing. -/
structure ServiceMetrics where
  status : Option String := none
  response_time : Option String := none
  uptime : Option String := none

/-- `HealthCheckStatusMessage` (messages.py lines 529-536).  The integer
fields are embedded as naturals; only `total_services = 0` matters to the
claims settled here. -/
structure HealthCheckStatusMessage where
  channel : String
  overall_status : String
  check_timestamp : String
  services_status : List (String × ServiceMetrics)
  total_services : Nat
  healthy_services : Nat

/-- The three-way status emoji map used by `HealthCheckStatusMessage`,
default `"🟡"`. -/
def healthStatusEmoji (s : String) : String :=
  if s = "healthy" then "🟢"
  else if s = "degraded" then "🟡"
  else if s = "unhealthy" then "🔴"
  else "🟡"

/-- The per-service emoji map used by `HealthCheckStatusMessage`, default
`"⚪"`. -/
def serviceStatusEmoji (s : String) : String :=
  if s = "healthy" then "🟢"
  else if s = "degraded" then "🟡"
  else if s = "unhealthy" then "🔴"
  else "⚪"

/-- One-decimal percentage string.  Abstracts the CPython float expression
`(healthy/total)*100:.1f`; no theorem below depends on the digits, only on
the fact that the computation is reached and (for `total = 0`) raises. -/
def formatPct1 (h t : Nat) : String :=
  let permil := h * 1000 / t
  toString (permil / 10) ++ "." ++ toString (permil % 10)

/-- Python `(healthy_services/total_services)*100`: raises `ZeroDivisionError`
when `total_services` is zero. -/
def formatAvailability (h t : Nat) : Except RenderError String :=
  if t = 0 then .error .zeroDivisionError
  else .ok (formatPct1 h t)

/-- `service_fields[i:i+2]` chunking: service status fields are grouped two
per section block. -/
def chunk2 : List α → List (List α)
  | [] => []
  | [a] => [[a]]
  | a :: b :: rest => [a, b] :: chunk2 rest

/-- `HealthCheckStatusMessage.to_message` (messages.py lines 538-611).  The
availability field divides by `total_services` while the first section block
is built; when `overall_status != "healthy"` the remediation actions block
looks up `ButtonStyle.DEFAULT`, which does not exist. -/
def HealthCheckStatusMessage.to_message (m : HealthCheckStatusMessage) :
    Except RenderError Message := do
  let status_emoji := healthStatusEmoji m.overall_status
  let service_fields : List TextObject := m.services_status.map fun (name, metrics) =>
    .mrkdwn { text := "*" ++ name ++ ":*\n" ++
      serviceStatusEmoji (metrics.status.getD "unknown") ++ " " ++
      metrics.status.getD "unknown" ++ " | " ++
      metrics.response_time.getD "N/A" ++ "ms | " ++
      metrics.uptime.getD "N/A" ++ "% uptime" }
  let avail ← formatAvailability m.healthy_services m.total_services
  let headBlocks : List Block := [
    .header { text := { text := status_emoji ++ " System Health Check", emoji := some true } },
    .section { fields := some [
      .mrkdwn { text := "*Overall Status:*\n" ++ status_emoji ++ " " ++ titleCase m.overall_status },
      .mrkdwn { text := "*Services:*\n" ++ toString m.healthy_services ++ "/" ++
        toString m.total_services ++ " Healthy" },
      .mrkdwn { text := "*Last Check:*\n" ++ m.check_timestamp },
      .mrkdwn { text := "*Availability:*\n" ++ avail ++ "%" }] },
    .divider {}]
  let svcBlocks : List Block := (chunk2 service_fields).map fun fs =>
    .section { fields := some fs }
  let actionBlocks : List Block ←
    if m.overall_status ≠ "healthy" then do
      let defStyle ← buttonStyleAttr "DEFAULT"
      pure [Block.divider {},
        Block.actions { elements := [
          { text := { text := "🔧 Run Diagnostics", emoji := some true }, style := some .PRIMARY },
          { text := { text := "📊 View Metrics", emoji := some true }, style := some defStyle }] }]
    else pure []
  pure { channel := m.channel
         text := status_emoji ++ " Health Check: " ++ m.overall_status
         blocks := some (headBlocks ++ svcBlocks ++ actionBlocks ++ [
           .context { elements := [
             .text (.mrkdwn { text := "🔄 Automated health checks run every 5 minutes" })] }]) }

/-- `BackupStatusMessage` (messages.py lines 628-641). -/
structure BackupStatusMessage where
  channel : String
  backup_name : String
  backup_status : String
  backup_type : String
  start_time : String
  end_time : String := ""
  duration_minutes : Nat := 0
  backup_size : String := ""
  storage_location : String
  retention_days : Nat
  next_backup : String
  error_message : String := ""

/-- The four-way status emoji map of `BackupStatusMessage`, default `"🔄"`. -/
def backupStatusEmoji (s : String) : String :=
  if s = "success" then "✅"
  else if s = "failed" then "❌"
  else if s = "in_progress" then "🔄"
  else if s = "warning" then "⚠️"
  else "🔄"

/-- The backup-type emoji map of `BackupStatusMessage`, default `"💾"`. -/
def backupTypeEmoji (s : String) : String :=
  if s = "full" then "💾"
  else if s = "incremental" then "📁"
  else if s = "differential" then "📋"
  else "💾"

/-- `BackupStatusMessage.to_message` (messages.py lines 643-739).  Both the
`"success"` and the `"failed"` branch look up `ButtonStyle.DEFAULT` for their
second button, which does not exist. -/
def BackupStatusMessage.to_message (m : BackupStatusMessage) :
    Except RenderError Message := do
  let status_emoji := backupStatusEmoji m.backup_status
  let type_emoji := backupTypeEmoji m.backup_type
  let headBlocks : List Block := [
    .header { text := { text := status_emoji ++ " Backup " ++ titleCase m.backup_status,
                        emoji := some true } },
    .section { text := some (.mrkdwn { text := type_emoji ++ " *" ++ m.backup_name ++
      "* (" ++ m.backup_type ++ " backup)" }) },
    .section { fields := some [
      .mrkdwn { text := "*Status:*\n" ++ status_emoji ++ " " ++ titleCase m.backup_status },
      .mrkdwn { text := "*Start Time:*\n" ++ m.start_time },
      .mrkdwn { text := "*Storage:*\n" ++ m.storage_location },
      .mrkdwn { text := "*Retention:*\n" ++ toString m.retention_days ++ " days" }] }]
  let doneBlocks : List Block :=
    if m.backup_status ≠ "in_progress" then
      [.section { fields := some [
        .mrkdwn { text := "*Duration:*\n" ++ toString m.duration_minutes ++ " minutes" },
        .mrkdwn { text := "*Size:*\n" ++ m.backup_size },
        .mrkdwn { text := "*End Time:*\n" ++ m.end_time },
        .mrkdwn { text := "*Next Backup:*\n" ++ m.next_backup }] }]
    else []
  let errorBlocks : List Block :=
    if m.error_message ≠ "" then
      [.divider {},
       .section { text := some (.mrkdwn { text := "*Error Details:*\n```" ++
         m.error_message ++ "```" }) }]
    else []
  let actionBlocks : List Block ←
    if m.backup_status = "success" then do
      let defStyle ← buttonStyleAttr "DEFAULT"
      pure [Block.divider {},
        Block.actions { elements := [
          { text := { text := "🔄 Restore", emoji := some true }, style := some .PRIMARY },
          { text := { text := "📊 View History", emoji := some true }, style := some defStyle }] }]
    else if m.backup_status = "failed" then do
      let defStyle ← buttonStyleAttr "DEFAULT"
      pure [Block.divider {},
        Block.actions { elements := [
          { text := { text := "🔄 Retry Backup", emoji := some true }, style := some .DANGER },
          { text := { text := "📋 View Logs", emoji := some true }, style := some defStyle }] }]
    else pure []
  pure { channel := m.channel
         text := status_emoji ++ " Backup " ++ m.backup_status ++ ": " ++ m.backup_name
         blocks := some (headBlocks ++ doneBlocks ++ errorBlocks ++ actionBlocks ++ [
           .context { elements := [
             .text (.mrkdwn { text := "💡 Regular backups ensure data protection and business continuity" })] }]) }

/-- `EscalationNotificationMessage` (messages.py lines 756-771). -/
structure EscalationNotificationMessage where
  channel : String
  incident_id : String
  incident_title : String
  original_severity : String
  new_severity : String
  original_priority : String
  new_priority : String
  escalation_reason : String
  escalated_to_team : String
  escalated_by : String
  escalation_time : String
  sla_breach_risk : Bool := false
  estimated_resolution_time : String := ""
  on_call_contact : String := ""

/-- The severity emoji map of `EscalationNotificationMessage` (applied to the
lower-cased severity), default `"⚪"`. -/
def escalationSeverityEmoji (s : String) : String :=
  if s = "low" then "🟢"
  else if s = "medium" then "🟡"
  else if s = "high" then "🟠"
  else if s = "critical" then "🔴"
  else "⚪"

/-- `EscalationNotificationMessage.to_message` (messages.py lines 773-878).
The always-appended action row looks up `ButtonStyle.DEFAULT` for its third
button, which does not exist, so the method raises on every instance. -/
def EscalationNotificationMessage.to_message (m : EscalationNotificationMessage) :
    Except RenderError Message := do
  let original_emoji := escalationSeverityEmoji (strLower m.original_severity)
  let new_emoji := escalationSeverityEmoji (strLower m.new_severity)
  let headBlocks : List Block := [
    .header { text := { text := "⬆️ INCIDENT ESCALATED", emoji := some true } },
    .section { text := some (.mrkdwn { text := "*" ++ m.incident_title ++ "*" }) },
    .section { fields := some [
      .mrkdwn { text := "*Incident ID:*\n" ++ m.incident_id },
      .mrkdwn { text := "*Escalated by:*\n" ++ m.escalated_by },
      .mrkdwn { text := "*Escalated to:*\n" ++ m.escalated_to_team },
      .mrkdwn { text := "*Time:*\n" ++ m.escalation_time }] },
    .divider {},
    .section { text := some (.mrkdwn { text := "*Escalation Changes:*" }) },
    .section { fields := some [
      .mrkdwn { text := "*Severity:*\n" ++ original_emoji ++ " " ++ m.original_severity ++
        " → " ++ new_emoji ++ " " ++ m.new_severity },
      .mrkdwn { text := "*Priority:*\n" ++ m.original_priority ++ " → " ++ m.new_priority }] },
    .divider {},
    .section { text := some (.mrkdwn { text := "*Escalation Reason:*\n" ++ m.escalation_reason }) }]
  let slaBlocks : List Block :=
    if m.sla_breach_risk then
      [.divider {},
       .section { text := some (.mrkdwn { text := "⚠️ *SLA Breach Risk Detected*\nImmediate attention required to meet service level agreements" }) }]
    else []
  let additional_fields : List TextObject :=
    (if m.estimated_resolution_time ≠ "" then
      [TextObject.mrkdwn { text := "*Est. Resolution:*\n" ++ m.estimated_resolution_time }]
     else []) ++
    (if m.on_call_contact ≠ "" then
      [TextObject.mrkdwn { text := "*On-call Contact:*\n" ++ m.on_call_contact }]
     else [])
  let additionalBlocks : List Block :=
    if additional_fields ≠ [] then
      [.divider {}, .section { fields := some additional_fields }]
    else []
  let defStyle ← buttonStyleAttr "DEFAULT"
  let tailBlocks : List Block := [
    .divider {},
    .actions { elements := [
      { text := { text := "📞 Contact Team", emoji := some true }, style := some .DANGER },
      { text := { text := "📋 View Details", emoji := some true }, style := some .PRIMARY },
      { text := { text := "📊 Escalation History", emoji := some true }, style := some defStyle }] },
    .context { elements := [
      .text (.mrkdwn { text := "🔔 This incident requires immediate attention from the escalated team" })] }]
  pure { channel := m.channel
         text := "⬆️ Escalated: " ++ m.incident_title
         blocks := some (headBlocks ++ slaBlocks ++ additionalBlocks ++ tailBlocks) }

-- ===========================================================================
-- JSON serialization text: pydantic model_dump_json(exclude_none=True, indent=2)
-- ===========================================================================

/-- One hexadecimal digit. -/
def hexDigit (n : Nat) : Char :=
  if n < 10 then Char.ofNat (48 + n) else Char.ofNat (87 + n)

/-- JSON string escaping as performed by pydantic v2 when serializing:
quote and backslash are escaped, the common control characters use their
short forms, other control characters use `\u00XX`, and everything else
(including non-ASCII) is emitted verbatim. -/
def jsonEscapeChar (c : Char) : List Char :=
  if c = dquoteC then [backslashC, dquoteC]
  else if c = backslashC then [backslashC, backslashC]
  else if c = Char.ofNat 10 then [backslashC, 'n']
  else if c = Char.ofNat 9 then [backslashC, 't']
  else if c = Char.ofNat 13 then [backslashC, 'r']
  else if c.toNat < 32 then
    [backslashC, 'u', '0', '0', hexDigit (c.toNat / 16), hexDigit (c.toNat % 16)]
  else [c]

def jsonEscapeString (s : String) : String := ⟨(s.data.map jsonEscapeChar).flatten⟩

def spacesN (n : Nat) : String := ⟨List.replicate n ' '⟩

/-! `Json.render` produces the `indent=2` textual form of a `Json` value, the
format of `model_dump_json(exclude_none=True, indent=2)`.  The recursion is
fuel-indexed so that it is structural (and therefore evaluates inside the
kernel); every call site uses ample fuel. -/

mutual

def Json.render : Nat → Nat → Json → String
  | 0, _, _ => ""
  | _ + 1, _, .str s => "\"" ++ jsonEscapeString s ++ "\""
  | _ + 1, _, .bool b => if b then "true" else "false"
  | _ + 1, _, .num n => toString n
  | fuel + 1, ind, .arr xs =>
    match xs with
    | [] => "[]"
    | _ => "[\n" ++ Json.renderElems fuel (ind + 2) xs ++ "\n" ++ spacesN ind ++ "]"
  | fuel + 1, ind, .obj ms =>
    match ms with
    | [] => "\x7b\x7d"
    | _ => "\x7b\n" ++ Json.renderMembers fuel (ind + 2) ms ++ "\n" ++ spacesN ind ++ "\x7d"

def Json.renderElems : Nat → Nat → List Json → String
  | 0, _, _ => ""
  | _ + 1, _, [] => ""
  | fuel + 1, ind, [x] => spacesN ind ++ Json.render fuel ind x
  | fuel + 1, ind, x :: y :: rest =>
    spacesN ind ++ Json.render fuel ind x ++ ",\n" ++ Json.renderElems fuel ind (y :: rest)

def Json.renderMembers : Nat → Nat → List (String × Json) → String
  | 0, _, _ => ""
  | _ + 1, _, [] => ""
  | fuel + 1, ind, [(k, v)] =>
    spacesN ind ++ "\"" ++ jsonEscapeString k ++ "\": " ++ Json.render fuel ind v
  | fuel + 1, ind, (k, v) :: y :: rest =>
    spacesN ind ++ "\"" ++ jsonEscapeString k ++ "\": " ++ Json.render fuel ind v ++ ",\n" ++
      Json.renderMembers fuel ind (y :: rest)

end

/-- `Message.to_json` (blocks.py lines 446-448):
`model_dump_json(exclude_none=True, indent=2)`. -/
def Message.to_json (m : Message) : String := Json.render 100 0 (Json.obj m.to_dict)

-- ===========================================================================
-- Shell quoting layer: a POSIX quote lexer
-- ===========================================================================

/-- Lexer state of the POSIX shell quoting layer: outside quotes, after a
backslash outside quotes, inside single quotes, inside double quotes, and
after a backslash inside double quotes. -/
inductive LexState where
  | normal
  | esc
  | single
  | double
  | descape
deriving DecidableEq

/-- One step of the quoting lexer. -/
def lexStep (st : LexState) (c : Char) : LexState :=
  match st with
  | .normal =>
    if c = backslashC then .esc
    else if c = squoteC then .single
    else if c = dquoteC then .double
    else .normal
  | .esc => .normal
  | .single => if c = squoteC then .normal else .single
  | .double =>
    if c = backslashC then .descape
    else if c = dquoteC then .normal
    else .double
  | .descape => .double

/-- The lexer run over a character list.  The accumulated state is forced at
every step (the inner match), so evaluation runs in constant stack. -/
def lexList : LexState → List Char → LexState
  | st, [] => st
  | st, c :: cs =>
    match lexStep st c with
    | .normal => lexList .normal cs
    | .esc => lexList .esc cs
    | .single => lexList .single cs
    | .double => lexList .double cs
    | .descape => lexList .descape cs

def lexStr (st : LexState) (s : String) : LexState := lexList st s.data

/-- A script is well formed at the shell quoting layer when scanning it from
the initial state ends outside of any quote and not after a dangling
backslash.  POSIX requires this of every parseable script: an unterminated
quote is a syntax error under any grammar. -/
def shellQuotesClosed (s : String) : Bool := lexStr .normal s == .normal

/-- States from which the lexer can continue normally (not in the middle of
a backslash escape). -/
def mainB : LexState → Bool
  | .normal => true
  | .single => true
  | .double => true
  | _ => false

/-- Characters that never change the quoting state: everything except the
double quote, the single quote and the backslash. -/
def benignChar (c : Char) : Bool :=
  !(c = dquoteC || c = squoteC || c = backslashC)

def benignStr (s : String) : Bool := s.data.all benignChar

/-- Characters whose `jsonEscapeChar` image is themselves and which are
benign for the shell lexer: not a quote, not a backslash, not a control
character. -/
def cleanChar (c : Char) : Bool := benignChar c && decide (32 ≤ c.toNat)

def cleanStr (s : String) : Bool := s.data.all cleanChar

-- ===========================================================================
-- Literal/interpolation piece lists for the f-string command templates
-- ===========================================================================

/-- A piece of an f-string template: a literal chunk or an interpolated
field value. -/
inductive SPiece where
  | lit (s : String)
  | fld (s : String)

def SPiece.render : SPiece → String
  | .lit s => s
  | .fld s => s

/-- A piece with its interpolated field erased: the shape of the template. -/
def SPiece.skel : SPiece → SPiece
  | .lit s => .lit s
  | .fld _ => .fld ""

def renderPieces (ps : List SPiece) : String := String.join (ps.map SPiece.render)

def lexPieces (st : LexState) (ps : List SPiece) : LexState :=
  ps.foldl (fun st p => lexStr st p.render) st

/-- A literal chunk keeps the lexer inside the three main states whichever
main state it starts from. -/
def mainPres (l : String) : Bool :=
  mainB (lexStr .normal l) && mainB (lexStr .single l) && mainB (lexStr .double l)

-- ===========================================================================
-- models/models.py : PostIncidentAlert (command + message model)
-- ===========================================================================

/-- `PostIncidentAlert` (models/models.py lines 501-512). -/
structure PostIncidentAlert where
  incident_id : String
  incident_title : String
  incident_severity : String
  incident_priority : String
  affected_services : String
  incident_body : String
  incident_url : String
  channel : String
  slack_token : String := ""
  output_file : String := "/tmp/incident_alert.json"

/-- `PostIncidentAlert.get_message` (models/models.py lines 562-575): builds a
`PostIncidentAlertMessage` with `severity_emoji` defaulting to the literal
shell placeholder `${SEVERITY_EMOJI}` and renders it. -/
def PostIncidentAlert.get_message (m : PostIncidentAlert) : Message :=
  PostIncidentAlertMessage.to_message {
    incident_title := m.incident_title
    incident_id := m.incident_id
    incident_severity := m.incident_severity
    severity_emoji := "$\x7bSEVERITY_EMOJI\x7d"
    incident_priority := m.incident_priority
    affected_services := m.affected_services
    incident_body := m.incident_body
    incident_url := m.incident_url
    channel := m.channel }

/-! Literal chunks of the `PostIncidentAlert.get_command` f-string
(models/models.py lines 514-540), and of the `msg_json` text it embeds —
the `indent=2` JSON rendering of `get_message()` as produced by
`Message.to_json`, inlined chunk by chunk.  The lemma
`piaMsgJsonPieces_matches_to_json` below checks the inlined JSON template
against `Message.to_json` on a representative instance. -/

def piaJ0 : String := "\x7b\n  \"channel\": \""

def piaJ1 : String := "\",\n  \"text\": \"🚨 INCIDENT: "

def piaJ2 : String :=
  "\",\n  \"blocks\": [\n    \x7b\n      \"type\": \"header\",\n      \"text\": \x7b\n        \"type\": \"plain_text\",\n        \"text\": \"🚨 Received incident to traige in PRODUCTION!\",\n        \"emoji\": true\n      \x7d\n    \x7d,\n    \x7b\n      \"type\": \"section\",\n      \"text\": \x7b\n        \"type\": \"mrkdwn\",\n        \"text\": \"*"

def piaJ3 : String :=
  "*\"\n      \x7d\n    \x7d,\n    \x7b\n      \"type\": \"section\",\n      \"fields\": [\n        \x7b\n          \"type\": \"mrkdwn\",\n          \"text\": \"*ID:* "

def piaJ4 : String :=
  "\"\n        \x7d,\n        \x7b\n          \"type\": \"mrkdwn\",\n          \"text\": \"*Severity:* $\x7bSEVERITY_EMOJI\x7d "

def piaJ5 : String :=
  "\"\n        \x7d,\n        \x7b\n          \"type\": \"mrkdwn\",\n          \"text\": \"*Priority:* "

def piaJ6 : String :=
  "\"\n        \x7d,\n        \x7b\n          \"type\": \"mrkdwn\",\n          \"text\": \"*Services:* "

def piaJ7 : String :=
  "\"\n        \x7d\n      ]\n    \x7d,\n    \x7b\n      \"type\": \"divider\"\n    \x7d,\n    \x7b\n      \"type\": \"section\",\n      \"text\": \x7b\n        \"type\": \"mrkdwn\",\n        \"text\": \""

def piaJ8 : String :=
  "\"\n      \x7d\n    \x7d,\n    \x7b\n      \"type\": \"divider\"\n    \x7d,\n    \x7b\n      \"type\": \"actions\",\n      \"elements\": [\n        \x7b\n          \"type\": \"button\",\n          \"text\": \x7b\n            \"type\": \"plain_text\",\n            \"text\": \"📊 View on Datadog\",\n            \"emoji\": true\n          \x7d,\n          \"url\": \""

def piaJ9 : String :=
  "\",\n          \"style\": \"primary\"\n        \x7d\n      ]\n    \x7d,\n    \x7b\n      \"type\": \"context\",\n      \"elements\": [\n        \x7b\n          \"type\": \"mrkdwn\",\n          \"text\": \"⚡ AI investigation will begin automatically in a few seconds...\"\n        \x7d\n      ]\n    \x7d\n  ]\n\x7d"

/-- The `msg_json` text of `PostIncidentAlert.get_command` as a piece list:
JSON literal chunks interleaved with the JSON-escaped field values. -/
def piaMsgJsonPieces (m : PostIncidentAlert) : List SPiece :=
  [.lit piaJ0, .fld (jsonEscapeString m.channel),
   .lit piaJ1, .fld (jsonEscapeString m.incident_title),
   .lit piaJ2, .fld (jsonEscapeString m.incident_title),
   .lit piaJ3, .fld (jsonEscapeString m.incident_id),
   .lit piaJ4, .fld (jsonEscapeString m.incident_severity),
   .lit piaJ5, .fld (jsonEscapeString m.incident_priority),
   .lit piaJ6, .fld (jsonEscapeString m.affected_services),
   .lit piaJ7, .fld (jsonEscapeString m.incident_body),
   .lit piaJ8, .fld (jsonEscapeString m.incident_url),
   .lit piaJ9]

def piaC0 : String :=
  "echo \"🚨 POSTING INCIDENT ALERT\"\n            echo \"Posting to channel: $\x7bNORMALIZED_CHANNEL_NAME\x7d\"\n            SEVERITY_EMOJI=\"\"\n            case \""

def piaC1 : String :=
  "\" in\n                critical) SEVERITY_EMOJI=\"🔴\" ;;\n                high) SEVERITY_EMOJI=\"🟠\" ;;\n                medium) SEVERITY_EMOJI=\"🟡\" ;;\n                low) SEVERITY_EMOJI=\"🟢\" ;;\n                *) SEVERITY_EMOJI=\"⚪\" ;;\n            esac\n            echo \""

def piaC2 : String := "\" > "

def piaC3 : String :=
  "\n            RESPONSE=$(curl -s -X POST https://slack.com/api/chat.postMessage\n                -H \"Authorization: Bearer "

def piaC4 : String :=
  "\"\n                -H \"Content-Type: application/json\"\n                -d @"

def piaC5 : String :=
  "\n            )\n            echo \"Slack API response: $RESPONSE\"\n            if [ $? -eq 0 ]; then\n                echo \"✅ Incident alert posted successfully\"\n            else\n                echo \"❌ Failed to post incident alert\"\n                exit 1\n            fi"

/-- The `PostIncidentAlert.get_command` f-string as a piece list: the shell
template literals, the raw interpolations (`incident_severity`,
`output_file` twice, `slack_token`) and the inlined `msg_json` pieces. -/
def PostIncidentAlert.cmdPieces (m : PostIncidentAlert) : List SPiece :=
  [.lit piaC0, .fld m.incident_severity, .lit piaC1] ++ piaMsgJsonPieces m ++
  [.lit piaC2, .fld m.output_file,
   .lit piaC3, .fld m.slack_token,
   .lit piaC4, .fld m.output_file,
   .lit piaC5]

/-- `PostIncidentAlert.get_command` (models/models.py lines 514-540). -/
def PostIncidentAlert.get_command (m : PostIncidentAlert) : String :=
  renderPieces (PostIncidentAlert.cmdPieces m)

-- ===========================================================================
-- models/models.py : InvestigationProgress (command + message model)
-- ===========================================================================

/-- `InvestigationProgress` (models/models.py lines 592-600). -/
structure InvestigationProgress where
  channel : String
  incident_id : String
  incident_title : String
  incident_severity : String
  investigation_timeout : String
  affected_services : String
  slack_token : String
  output_file : String := "/tmp/investigation_progress.json"

/-- `InvestigationProgress.get_message` (models/models.py lines 620-629):
builds an `InvestigationProgressMessage` whose `timeout_minutes` is the
literal shell placeholder `${TIMEOUT_MINUTES}` and renders it. -/
def InvestigationProgress.get_message (m : InvestigationProgress) : Message :=
  InvestigationProgressMessage.to_message {
    channel := m.channel
    incident_id := m.incident_id
    incident_title := m.incident_title
    incident_severity := m.incident_severity
    affected_services := m.affected_services
    timeout_minutes := "$\x7bTIMEOUT_MINUTES\x7d" }

/-! Literal chunks of the `InvestigationProgress.get_command` f-string
(models/models.py lines 602-618) and of its inlined `msg_json` text.
The `\n` sequences inside the JSON string values are the two-character
escape produced by JSON string serialization of embedded newlines. -/

def ipJ0 : String := "\x7b\n  \"channel\": \""

def ipJ1 : String :=
  "\",\n  \"text\": \"🔍 AI Investigation Started\",\n  \"blocks\": [\n    \x7b\n      \"type\": \"section\",\n      \"text\": \x7b\n        \"type\": \"mrkdwn\",\n        \"text\": \"🔍 *AI Investigation Started*\\n"

def ipJ2 : String :=
  "\"\n      \x7d\n    \x7d,\n    \x7b\n      \"type\": \"context\",\n      \"elements\": [\n        \x7b\n          \"type\": \"mrkdwn\",\n          \"text\": \"ID: "

def ipJ3 : String := " | Severity: "

def ipJ4 : String := " | Services: "

def ipJ5 : String :=
  "\"\n        \x7d\n      ]\n    \x7d,\n    \x7b\n      \"type\": \"divider\"\n    \x7d,\n    \x7b\n      \"type\": \"section\",\n      \"fields\": [\n        \x7b\n          \"type\": \"mrkdwn\",\n          \"text\": \"*🇺🇸 NA Agent*\\n🟢 Analyzing...\"\n        \x7d,\n        \x7b\n          \"type\": \"mrkdwn\",\n          \"text\": \"*🇪🇺 EU Agent*\\n🟢 Analyzing...\"\n        \x7d\n      ]\n    \x7d,\n    \x7b\n      \"type\": \"context\",\n      \"elements\": [\n        \x7b\n          \"type\": \"mrkdwn\",\n          \"text\": \"⏱️ ETA: ~$\x7bTIMEOUT_MINUTES\x7d minutes | 💡 Partial results will be provided even if steps fail\"\n        \x7d\n      ]\n    \x7d\n  ]\n\x7d"

/-- The `msg_json` text of `InvestigationProgress.get_command` as a piece
list. -/
def ipMsgJsonPieces (m : InvestigationProgress) : List SPiece :=
  [.lit ipJ0, .fld (jsonEscapeString m.channel),
   .lit ipJ1, .fld (jsonEscapeString m.incident_title),
   .lit ipJ2, .fld (jsonEscapeString m.incident_id),
   .lit ipJ3, .fld (jsonEscapeString m.incident_severity),
   .lit ipJ4, .fld (jsonEscapeString m.affected_services),
   .lit ipJ5]

def ipC0 : String :=
  "echo \"📊 POSTING INVESTIGATION PROGRESS UPDATE\"\n            echo \"Posting to channel: "

def ipC1 : String := "\"\n            TIMEOUT_SECONDS=\""

def ipC2 : String :=
  "\"\n            TIMEOUT_MINUTES=$((TIMEOUT_SECONDS / 60))\n            \n            echo \""

def ipC3 : String := "\" > "

def ipC4 : String :=
  "\n            \n            curl -s -X POST https://slack.com/api/chat.postMessage \n                -H \"Authorization: Bearer "

def ipC5 : String :=
  "\" \n                -H \"Content-Type: application/json\"\n                -d @"

def ipC6 : String :=
  "\n            \n            echo \"✅ Investigation progress notification posted to Slack\""

/-- The `InvestigationProgress.get_command` f-string as a piece list. -/
def InvestigationProgress.cmdPieces (m : InvestigationProgress) : List SPiece :=
  [.lit ipC0, .fld m.channel,
   .lit ipC1, .fld m.investigation_timeout,
   .lit ipC2] ++ ipMsgJsonPieces m ++
  [.lit ipC3, .fld m.output_file,
   .lit ipC4, .fld m.slack_token,
   .lit ipC5, .fld m.output_file,
   .lit ipC6]

/-- `InvestigationProgress.get_command` (models/models.py lines 602-618). -/
def InvestigationProgress.get_command (m : InvestigationProgress) : String :=
  renderPieces (InvestigationProgress.cmdPieces m)

-- ===========================================================================
-- input_files/investigation_results.py and Message.send : HTTP helpers
-- ===========================================================================

/-- The Slack `files.upload` / `chat.postMessage` file object, keyed by the
only field the callers read (`permalink`). -/
structure FileObj where
  permalink : Option String := none
deriving DecidableEq

/-- The observable part of an HTTP response: the status code and the parsed
JSON body fields read by the functions of the repository (`ok`, `error`, `file`). -/
structure HttpResponse where
  status_code : Nat
  ok : Bool := false
  error : Option String := none
  file : Option FileObj := none
deriving DecidableEq

/-- The outcome of one `requests.post` call: either a response or a raised
exception (carrying its message text). -/
inductive HttpAttempt where
  | exc (msg : String)
  | resp (r : HttpResponse)
deriving DecidableEq

/-- Python string interpolation of `result.get(...)` values: a missing value
(`None`) prints as the text `None`. -/
def pyOptStr (o : Option String) : String := o.getD "None"

/-- The observable result of `upload_file_to_slack`: the returned value
(`some` ↦ the file object, `none` ↦ Python `None`), the lines printed,
and the number of HTTP requests attempted. -/
structure UploadResult where
  file : Option FileObj
  prints : List String
  requests : Nat
deriving DecidableEq

/-- `upload_file_to_slack` (input_files/investigation_results.py lines 48-83)
as a function of the file name and the outcome of its single `requests.post`
call.  On a 200 response with `ok` true it returns the `file` entry of the body (an empty object when missing);
on a non-200 status, an `ok` false body, or an exception it prints a failure
line and returns `None`.  There is no loop or retry: exactly one request is
attempted per call. -/
def upload_file_to_slack (filename : String) (attempt : HttpAttempt) : UploadResult :=
  match attempt with
  | .exc e =>
    { file := none
      prints := ["❌ Exception uploading " ++ filename ++ ": " ++ e]
      requests := 1 }
  | .resp r =>
    if r.status_code = 200 then
      if r.ok then
        { file := some (r.file.getD {})
          prints := ["✅ Successfully uploaded " ++ filename ++ " (no message posted)"]
          requests := 1 }
      else
        { file := none
          prints := ["❌ Failed to upload " ++ filename ++ ": " ++ pyOptStr r.error]
          requests := 1 }
    else
      { file := none
        prints := ["❌ HTTP error uploading " ++ filename ++ ": " ++ toString r.status_code]
        requests := 1 }

/-- `post_summary_message` (input_files/investigation_results.py lines 85-232)
as a function of the outcome of its single `requests.post` call: the payload
construction is pure string/JSON assembly and does not affect the
status-check logic modelled here.  Returns the boolean result together with
the line printed. -/
def post_summary_message (attempt : HttpAttempt) : Bool × List String :=
  match attempt with
  | .exc e => (false, ["❌ Error posting summary: " ++ e])
  | .resp r =>
    if r.status_code = 200 ∧ r.ok = true then
      (true, ["✅ Summary message posted successfully to Slack"])
    else
      (false, ["❌ Failed to post summary: " ++ r.error.getD "Unknown error"])

/-- `Message.send` (blocks.py lines 450-459) as a function of the message,
the token and the response of its single `requests.post` call: it returns
`response.status_code` unconditionally.  The second component is the list of
lines the method prints — the method prints nothing. -/
def Message.send (m : Message) (token : String) (r : HttpResponse) :
    Nat × List String :=
  (r.status_code, [])

-- ===========================================================================
-- Supporting predicates for the claims
-- ===========================================================================

/-- The normal form `get_command` leaves in the `datasets`/`metrics` field:
`None` becomes the comma-joined default list, a list becomes its comma-joined
string, a string stays. -/
def unionNormalForm (defaults : List String) : Option StrOrList → String
  | none => joinComma defaults
  | some (.list xs) => joinComma xs
  | some (.str s) => s

/-- The per-block Slack Block Kit limits the spec names: header text at most
150 characters, at most 25 elements per actions block, at most 10 entries in
a section field array. -/
def blockSchemaOk : Block → Bool
  | .header h => h.text.text.length ≤ 150
  | .actions a => a.elements.length ≤ 25
  | .section s =>
    match s.fields with
    | some fs => fs.length ≤ 10
    | none => true
  | _ => true

def blockTypeString : Block → String
  | .header _ => "header"
  | .section _ => "section"
  | .divider _ => "divider"
  | .actions _ => "actions"
  | .context _ => "context"

/-- The serialized block carries its correct `type` tag as the first entry. -/
def blockTagOk (b : Block) : Bool :=
  match b.toJson with
  | .obj (("type", .str t) :: _) => t == blockTypeString b
  | _ => false

/-- Schema conformance of a rendered message payload: every block satisfies
the size limits and carries its correct type tag. -/
def slackSchemaOk (msg : Message) : Bool :=
  (msg.blocks.getD []).all fun b => blockSchemaOk b && blockTagOk b

/-- A message contains an actions block. -/
def hasActionsBlock (msg : Message) : Bool :=
  (msg.blocks.getD []).any fun b =>
    match b with
    | .actions _ => true
    | _ => false

/-- The upload attempts on which `upload_file_to_slack` reports failure:
a raised exception, a non-200 status, or an `ok = false` body. -/
def uploadFails : HttpAttempt → Prop
  | .exc _ => True
  | .resp r => ¬(r.status_code = 200 ∧ r.ok = true)

/-- All literal chunks of a piece list preserve the main lexer states. -/
def litsPres (ps : List SPiece) : Bool :=
  ps.all fun p =>
    match p with
    | .lit s => mainPres s
    | .fld _ => true

/-- All field chunks of a piece list are benign for the quoting lexer. -/
def fldsBenign (ps : List SPiece) : Bool :=
  ps.all fun p =>
    match p with
    | .lit _ => true
    | .fld s => benignStr s

/-- The header block of `DeploymentNotificationMessage.to_message`. -/
def deploymentHeaderBlock (m : DeploymentNotificationMessage) : Block :=
  .header { text := { text := deploymentStatusEmoji m.deployment_status ++
    " Deployment " ++ titleCase m.deployment_status, emoji := some true } }

/-- The deployment-details section of `DeploymentNotificationMessage.to_message`. -/
def deploymentInfoSection (m : DeploymentNotificationMessage) : Block :=
  .section { fields := some [
    .mrkdwn { text := "*Service:*\n" ++ m.service_name },
    .mrkdwn { text := "*Version:*\n" ++ m.version },
    .mrkdwn { text := "*Environment:*\n" ++ m.environment },
    .mrkdwn { text := "*Deployed by:*\n" ++ m.deployed_by }] }

/-- The commit/time section of `DeploymentNotificationMessage.to_message`. -/
def deploymentCommitSection (m : DeploymentNotificationMessage) : Block :=
  .section { text := some (.mrkdwn { text := "*Commit:* `" ++ m.commit_hash ++
    "`\n*Time:* " ++ m.deploy_time }) }

/-- The Rollback / View Logs actions block of
`DeploymentNotificationMessage.to_message`. -/
def deploymentActionsBlock : Block :=
  .actions { elements := [
    { text := { text := "🔄 Rollback", emoji := some true }, style := some .DANGER },
    { text := { text := "📋 View Logs", emoji := some true }, style := some .PRIMARY }] }

-- ===========================================================================
-- Concrete instances used by counterexamples and witnesses
-- ===========================================================================

/-- A representative `PostIncidentAlert` whose fields are clean for the shell
quoting layer. -/
def piaExample : PostIncidentAlert :=
  { incident_id := "INC-1", incident_title := "DB down", incident_severity := "high",
    incident_priority := "P1", affected_services := "api", incident_body := "body text",
    incident_url := "https://x.y/z", channel := "C01", slack_token := "tok" }

/-- A `PostIncidentAlert` whose `incident_severity` contains a double quote. -/
def piaQuoteExample : PostIncidentAlert :=
  { piaExample with incident_severity := "high\"" }

/-- A representative `InvestigationProgress` whose fields are clean for the
shell quoting layer. -/
def ipExample : InvestigationProgress :=
  { channel := "C01", incident_id := "INC-1", incident_title := "DB down",
    incident_severity := "high", investigation_timeout := "600",
    affected_services := "api", slack_token := "tok" }

/-- A representative `EscalationNotificationMessage`. -/
def escalationExample : EscalationNotificationMessage :=
  { channel := "C01", incident_id := "INC-1", incident_title := "DB down",
    original_severity := "high", new_severity := "critical",
    original_priority := "P2", new_priority := "P1",
    escalation_reason := "no progress", escalated_to_team := "SRE",
    escalated_by := "alice", escalation_time := "12:00" }

/-- A successful backup notification. -/
def backupSuccessExample : BackupStatusMessage :=
  { channel := "C01", backup_name := "db-nightly", backup_status := "success",
    backup_type := "full", start_time := "01:00", storage_location := "s3://b",
    retention_days := 30, next_backup := "tomorrow" }

/-- A failed backup notification. -/
def backupFailedExample : BackupStatusMessage :=
  { backupSuccessExample with backup_status := "failed" }

/-- A health check over zero services. -/
def healthZeroExample : HealthCheckStatusMessage :=
  { channel := "C01", overall_status := "healthy", check_timestamp := "12:00",
    services_status := [], total_services := 0, healthy_services := 0 }

/-- A degraded health check over two services. -/
def healthDegradedExample : HealthCheckStatusMessage :=
  { channel := "C01", overall_status := "degraded", check_timestamp := "12:00",
    services_status := [("api", { status := some "degraded" })],
    total_services := 2, healthy_services := 1 }

/-- A deployment notification whose `deployment_status` is 160 characters
long. -/
def deployLongStatusExample : DeploymentNotificationMessage :=
  { channel := "C01", service_name := "svc", version := "1", environment := "prod",
    deployment_status := String.mk (List.replicate 160 'a'), deploy_time := "now",
    deployed_by := "bob", commit_hash := "abc123" }

/-- An HTTP response with status 500. -/
def resp500 : HttpResponse := { status_code := 500 }

/-- All string fields of a `PostIncidentAlert` avoid quote, backslash and
control characters. -/
def PostIncidentAlert.cleanFields (m : PostIncidentAlert) : Bool :=
  cleanStr m.incident_id && cleanStr m.incident_title && cleanStr m.incident_severity &&
  cleanStr m.incident_priority && cleanStr m.affected_services && cleanStr m.incident_body &&
  cleanStr m.incident_url && cleanStr m.channel && cleanStr m.slack_token &&
  cleanStr m.output_file

/-- All string fields of an `InvestigationProgress` avoid quote, backslash
and control characters. -/
def InvestigationProgress.cleanFields (m : InvestigationProgress) : Bool :=
  cleanStr m.channel && cleanStr m.incident_id && cleanStr m.incident_title &&
  cleanStr m.incident_severity && cleanStr m.investigation_timeout &&
  cleanStr m.affected_services && cleanStr m.slack_token && cleanStr m.output_file

-- ===========================================================================
-- Helper lemmas
-- ===========================================================================

theorem lexList_cons (st : LexState) (c : Char) (cs : List Char) :
    lexList st (c :: cs) = lexList (lexStep st c) cs := by
  cases h : lexStep st c <;> simp [lexList, h]

theorem lexStr_append (st : LexState) (a b : String) :
    lexStr st (a ++ b) = lexStr (lexStr st a) b := by
  simp only [lexStr, String.data_append]
  induction a.data generalizing st with
  | nil => rfl
  | cons c cs ih =>
    simp only [List.cons_append, lexList_cons]
    exact ih (lexStep st c)

theorem lexStep_benign (c : Char) (st : LexState) (hc : benignChar c = true)
    (hst : mainB st = true) : lexStep st c = st := by
  cases st <;> simp_all [lexStep, benignChar, mainB]

theorem lexList_benign (cs : List Char) (st : LexState) (hc : cs.all benignChar = true)
    (hst : mainB st = true) : lexList st cs = st := by
  induction cs with
  | nil => rfl
  | cons c cs ih =>
    simp only [List.all_cons, Bool.and_eq_true] at hc
    rw [lexList_cons, lexStep_benign c st hc.1 hst]
    exact ih hc.2

theorem lexStr_benign (s : String) (st : LexState) (hs : benignStr s = true)
    (hst : mainB st = true) : lexStr st s = st :=
  lexList_benign s.data st hs hst

theorem mainB_lexStr (l : String) (st : LexState) (hp : mainPres l = true)
    (hst : mainB st = true) : mainB (lexStr st l) = true := by
  simp only [mainPres, Bool.and_eq_true] at hp
  cases st <;> simp_all [mainB]

/-- Replacing every interpolated field of a piece list by the empty string
does not change the final lexer state, provided the fields consist of benign
characters and the literal chunks preserve the main states. -/
theorem lexPieces_skel (ps : List SPiece) (st : LexState) (hst : mainB st = true)
    (hlit : ∀ s, SPiece.lit s ∈ ps → mainPres s = true)
    (hfld : ∀ s, SPiece.fld s ∈ ps → benignStr s = true) :
    lexPieces st ps = lexPieces st (ps.map SPiece.skel) := by
  induction ps generalizing st with
  | nil => rfl
  | cons p ps ih =>
    cases p with
    | lit s =>
      have hs := hlit s (by simp)
      simp only [lexPieces, List.foldl_cons, List.map_cons, SPiece.skel, SPiece.render]
      exact ih (lexStr st s) (mainB_lexStr s st hs hst)
        (fun t ht => hlit t (by simp [ht])) (fun t ht => hfld t (by simp [ht]))
    | fld s =>
      have hs := hfld s (by simp)
      simp only [lexPieces, List.foldl_cons, List.map_cons, SPiece.skel, SPiece.render]
      rw [lexStr_benign s st hs hst]
      exact ih st hst
        (fun t ht => hlit t (by simp [ht])) (fun t ht => hfld t (by simp [ht]))

theorem lexStr_foldl_append (l : List String) (st : LexState) (a : String) :
    lexStr st (l.foldl (· ++ ·) a) = l.foldl lexStr (lexStr st a) := by
  induction l generalizing a with
  | nil => rfl
  | cons x xs ih =>
    simp only [List.foldl_cons]
    rw [ih (a ++ x), lexStr_append]

theorem lexStr_renderPieces (ps : List SPiece) (st : LexState) :
    lexStr st (renderPieces ps) = lexPieces st ps := by
  have h := lexStr_foldl_append (ps.map SPiece.render) st ""
  simpa [renderPieces, String.join, lexPieces, List.foldl_map] using h

theorem jsonEscapeChar_clean (c : Char) (hc : cleanChar c = true) :
    jsonEscapeChar c = [c] := by
  have hb : benignChar c = true := by
    simp only [cleanChar, Bool.and_eq_true] at hc
    exact hc.1
  have hge : 32 ≤ c.toNat := by
    simp only [cleanChar, Bool.and_eq_true, decide_eq_true_eq] at hc
    exact hc.2
  have hdq : ¬ c = dquoteC := by intro h; subst h; revert hb; decide
  have hbs : ¬ c = backslashC := by intro h; subst h; revert hb; decide
  have h10 : ¬ c = Char.ofNat 10 := by rintro rfl; revert hge; decide
  have h9 : ¬ c = Char.ofNat 9 := by rintro rfl; revert hge; decide
  have h13 : ¬ c = Char.ofNat 13 := by rintro rfl; revert hge; decide
  have hctl : ¬ c.toNat < 32 := by omega
  simp [jsonEscapeChar, hdq, hbs, h10, h9, h13, hctl]

theorem jsonEscapeList_clean (cs : List Char) (hc : cs.all cleanChar = true) :
    (cs.map jsonEscapeChar).flatten = cs := by
  induction cs with
  | nil => rfl
  | cons c cs ih =>
    simp only [List.all_cons, Bool.and_eq_true] at hc
    simp [jsonEscapeChar_clean c hc.1, ih hc.2]

theorem jsonEscapeString_clean (s : String) (hs : cleanStr s = true) :
    jsonEscapeString s = s := by
  cases s with
  | mk data =>
    simp only [jsonEscapeString]
    exact congrArg String.mk (jsonEscapeList_clean data hs)

theorem benignStr_of_clean (s : String) (hs : cleanStr s = true) :
    benignStr s = true := by
  simp only [cleanStr, List.all_eq_true] at hs
  simp only [benignStr, List.all_eq_true]
  intro c hcmem
  have := hs c hcmem
  simp only [cleanChar, Bool.and_eq_true] at this
  exact this.1

theorem litsPres_spec (ps : List SPiece) (h : litsPres ps = true) :
    ∀ s, SPiece.lit s ∈ ps → mainPres s = true := by
  intro s hs
  simp only [litsPres, List.all_eq_true] at h
  exact h _ hs

theorem fldsBenign_spec (ps : List SPiece) (h : fldsBenign ps = true) :
    ∀ s, SPiece.fld s ∈ ps → benignStr s = true := by
  intro s hs
  simp only [fldsBenign, List.all_eq_true] at h
  exact h _ hs

/-- Quote-layer well-formedness of a piece-list script follows from its
skeleton being closed, provided literals preserve main states and fields are
benign. -/
theorem shellQuotesClosed_of_skel (ps : List SPiece)
    (hlit : litsPres ps = true) (hfld : fldsBenign ps = true)
    (hskel : lexPieces .normal (ps.map SPiece.skel) = .normal) :
    shellQuotesClosed (renderPieces ps) = true := by
  have h1 := lexStr_renderPieces ps .normal
  have h2 := lexPieces_skel ps .normal rfl (litsPres_spec ps hlit) (fldsBenign_spec ps hfld)
  simp only [shellQuotesClosed, h1, h2, hskel, beq_self_eq_true]

theorem titleCaseGo_length (b : Bool) (cs : List Char) :
    (titleCaseGo b cs).length = cs.length := by
  induction cs generalizing b with
  | nil => rfl
  | cons c cs ih => simp [titleCaseGo, ih]

theorem titleCase_length (s : String) : (titleCase s).length = s.length := by
  cases s with
  | mk data => simpa [titleCase, String.length] using titleCaseGo_length false data

theorem deploymentStatusEmoji_length (s : String) :
    (deploymentStatusEmoji s).length = 1 := by
  unfold deploymentStatusEmoji
  split_ifs <;> rfl

theorem mem_optEntry_keys (k k' : String) (v : Option Json) :
    (k ∈ (optEntry k' v).map Prod.fst) ↔ (k = k' ∧ v.isSome) := by
  cases v <;> simp [optEntry]

theorem mem_optEntry_pair (k k' : String) (j : Json) (v : Option Json) :
    ((k, j) ∈ optEntry k' v) ↔ (k = k' ∧ v = some j) := by
  cases v <;> simp [optEntry, eq_comm]

theorem occursIn_append_three (p n s : String) : occursIn n (p ++ (n ++ s)) :=
  ⟨p, s, by simp [String.append_assoc]⟩

theorem occursIn_append_left (a : String) {n t : String} (h : occursIn n t) :
    occursIn n (a ++ t) := by
  obtain ⟨p, s, he⟩ := h
  exact ⟨a ++ p, s, by rw [he]; simp [String.append_assoc]⟩

-- ===========================================================================
-- Claim theorems
-- ===========================================================================

/-- Claim C2, counterexample: rendering is not field-preserving.  Calling
`get_command` on a `SupportedDatasets` whose `datasets` field is `None`
changes the field: a second read after rendering sees the comma-joined
default list instead of `None`. -/
theorem c2_counterexample :
    (SupportedDatasets.get_command { datasets := none }).2 ≠
      ({ datasets := none } : SupportedDatasets) := by
  decide

/-- Claim C2 as amended: every render output is a pure function of the
pre-call fields, but not every render leaves the fields unchanged.
`SupportedDatasets.get_command` and `DatadogMetrics.get_command` overwrite
`datasets`/`metrics` with the comma-joined normal form of the pre-call value,
and `CopilotContextData.get_prompt` (which returns `None`, not a string)
stores the six generated prompt strings into the prompt fields while leaving
the incident-context fields unchanged. -/
theorem c2_amended :
    (∀ s : SupportedDatasets,
      SupportedDatasets.get_command s =
        (SupportedDatasets.script (unionNormalForm SupportedDatasets.defaultDatasets s.datasets),
         { datasets := some (.str (unionNormalForm SupportedDatasets.defaultDatasets s.datasets)) })) ∧
    (∀ d : DatadogMetrics,
      DatadogMetrics.get_command d =
        (DatadogMetrics.script (unionNormalForm DatadogMetrics.defaultMetrics d.metrics),
         { metrics := some (.str (unionNormalForm DatadogMetrics.defaultMetrics d.metrics)) })) ∧
    (∀ c : CopilotContextData,
      (c.get_prompt).incident_id = c.incident_id ∧
      (c.get_prompt).incident_title = c.incident_title ∧
      (c.get_prompt).incident_severity = c.incident_severity ∧
      (c.get_prompt).affected_services = c.affected_services ∧
      (c.get_prompt).datadog_metrics_config = c.datadog_metrics_config ∧
      (c.get_prompt).observe_supported_ds_ids = c.observe_supported_ds_ids ∧
      (c.get_prompt).copilot_prompt = copilotPromptText c ∧
      (c.get_prompt).deep_dive_prompt = deepDivePromptText c ∧
      (c.get_prompt).apply_fixes_prompt = applyFixesPromptText c ∧
      (c.get_prompt).monitoring_prompt = monitoringPromptText c ∧
      (c.get_prompt).na_followup_prompt = naFollowupPromptText c ∧
      (c.get_prompt).eu_followup_prompt = euFollowupPromptText c) := by
  refine ⟨?_, ?_, ?_⟩
  · intro s
    obtain ⟨ds⟩ := s
    rcases ds with _ | (xs | t) <;> rfl
  · intro d
    obtain ⟨ms⟩ := d
    rcases ms with _ | (xs | t) <;> rfl
  · intro c
    exact ⟨rfl, rfl, rfl, rfl, rfl, rfl, rfl, rfl, rfl, rfl, rfl, rfl⟩

/-- Claim C6: the shell script generated by `ValidateIncident.get_command`
interpolates the value of each of the eight fields into the script text. -/
theorem c6_fields_interpolated (v : ValidateIncident) :
    occursIn v.incident_id v.get_command ∧
    occursIn v.incident_title v.get_command ∧
    occursIn v.incident_severity v.get_command ∧
    occursIn v.affected_services v.get_command ∧
    occursIn v.incident_priority v.get_command ∧
    occursIn v.incident_owner v.get_command ∧
    occursIn v.incident_source v.get_command ∧
    occursIn v.customer_impact v.get_command := by
  refine ⟨?_, ?_, ?_, ?_, ?_, ?_, ?_, ?_⟩ <;>
  · simp only [ValidateIncident.get_command, String.append_assoc]
    repeat first
      | exact occursIn_append_three _ _ _
      | apply occursIn_append_left

/-- Claim C8: `get_command` is idempotent in its output for
`SupportedDatasets` (datasets initially `None`, a list, or a string) and
`DatadogMetrics`: a second call on the post-call state returns the same
string. -/
theorem c8_idempotent_output :
    (∀ s : SupportedDatasets,
      (SupportedDatasets.get_command (SupportedDatasets.get_command s).2).1 =
        (SupportedDatasets.get_command s).1) ∧
    (∀ d : DatadogMetrics,
      (DatadogMetrics.get_command (DatadogMetrics.get_command d).2).1 =
        (DatadogMetrics.get_command d).1) := by
  constructor
  · intro s
    obtain ⟨ds⟩ := s
    rcases ds with _ | (xs | t) <;> rfl
  · intro d
    obtain ⟨ms⟩ := d
    rcases ms with _ | (xs | t) <;> rfl

/-- Claim C9: `Message.to_dict` always contains the required keys `channel`
and `text`, and contains the key of an optional field exactly when that field
is not `None` — no key of the payload maps to a `None`-valued field. -/
theorem c9_to_dict_excludes_none (m : Message) :
    "channel" ∈ m.dictKeys ∧
    "text" ∈ m.dictKeys ∧
    (("attachments" ∈ m.dictKeys) ↔ m.attachments.isSome = true) ∧
    (("blocks" ∈ m.dictKeys) ↔ m.blocks.isSome = true) ∧
    (("thread_ts" ∈ m.dictKeys) ↔ m.thread_ts.isSome = true) ∧
    (("mrkdwn" ∈ m.dictKeys) ↔ m.mrkdwn.isSome = true) ∧
    (("username" ∈ m.dictKeys) ↔ m.username.isSome = true) ∧
    (("icon_emoji" ∈ m.dictKeys) ↔ m.icon_emoji.isSome = true) ∧
    (("icon_url" ∈ m.dictKeys) ↔ m.icon_url.isSome = true) ∧
    (("parse" ∈ m.dictKeys) ↔ m.parse.isSome = true) ∧
    (("link_names" ∈ m.dictKeys) ↔ m.link_names.isSome = true) ∧
    (("unfurl_links" ∈ m.dictKeys) ↔ m.unfurl_links.isSome = true) ∧
    (("unfurl_media" ∈ m.dictKeys) ↔ m.unfurl_media.isSome = true) := by
  refine ⟨?_, ?_, ?_, ?_, ?_, ?_, ?_, ?_, ?_, ?_, ?_, ?_, ?_⟩ <;>
  · simp only [Message.dictKeys, Message.to_dict, List.map_append, List.mem_append,
      mem_optEntry_keys, List.map_cons, List.map_nil, List.mem_cons, List.not_mem_nil]
    simp

/-- Claim C10: the rendered deployment notification contains an actions block
(with the Rollback and View Logs buttons) if and only if
`deployment_status = "failed"` and `rollback_available` is true; otherwise
the block list is exactly the header and the two section blocks. -/
theorem c10_deployment_actions_iff (d : DeploymentNotificationMessage) :
    (d.to_message).blocks = some
      ([deploymentHeaderBlock d, deploymentInfoSection d, deploymentCommitSection d] ++
        (if d.deployment_status = "failed" ∧ d.rollback_available = true then
          [deploymentActionsBlock] else [])) ∧
    (hasActionsBlock d.to_message = true ↔
      (d.deployment_status = "failed" ∧ d.rollback_available = true)) := by
  constructor
  · rfl
  · by_cases hc : d.deployment_status = "failed" ∧ d.rollback_available = true
    · simp [hasActionsBlock, DeploymentNotificationMessage.to_message, hc]
    · simp [hasActionsBlock, DeploymentNotificationMessage.to_message, hc]

/-- Claim C7: each call of `upload_file_to_slack` attempts exactly one HTTP
request and prints exactly one line; on any failure (non-200 status,
`ok` false, or an exception) it returns `None`, and on success it returns the
file object of the response. -/
theorem c7_upload_single_attempt (fn : String) (a : HttpAttempt) :
    (upload_file_to_slack fn a).requests = 1 ∧
    (upload_file_to_slack fn a).prints.length = 1 ∧
    (uploadFails a → (upload_file_to_slack fn a).file = none) ∧
    (∀ r, a = .resp r → r.status_code = 200 → r.ok = true →
      (upload_file_to_slack fn a).file = some (r.file.getD {})) := by
  rcases a with e | r
  · refine ⟨rfl, rfl, fun _ => rfl, ?_⟩
    intro r h
    cases h
  · by_cases h200 : r.status_code = 200
    · by_cases hok : r.ok = true
      · refine ⟨?_, ?_, ?_, ?_⟩
        · simp [upload_file_to_slack, h200, hok]
        · simp [upload_file_to_slack, h200, hok]
        · intro hf
          exact absurd ⟨h200, hok⟩ hf
        · intro r' hr' _ _
          cases hr'
          simp [upload_file_to_slack, h200, hok]
      · refine ⟨?_, ?_, ?_, ?_⟩
        · simp [upload_file_to_slack, h200, hok]
        · simp [upload_file_to_slack, h200, hok]
        · intro _
          simp [upload_file_to_slack, h200, hok]
        · intro r' hr' _ hok'
          cases hr'
          exact absurd hok' hok
    · refine ⟨?_, ?_, ?_, ?_⟩
      · simp [upload_file_to_slack, h200]
      · simp [upload_file_to_slack, h200]
      · intro _
        simp [upload_file_to_slack, h200]
      · intro r' hr' h200' _
        cases hr'
        exact absurd h200' h200

/-- Witness for Claim C7 at a concrete failing upload: a 500 response fails,
and the function returns `None` there. -/
theorem c7_upload_single_attempt_witness :
    uploadFails (HttpAttempt.resp resp500) ∧
    (upload_file_to_slack "report.md" (HttpAttempt.resp resp500)).file = none :=
  ⟨by simp [uploadFails, resp500],
   (c7_upload_single_attempt "report.md" (.resp resp500)).2.2.1
     (by simp [uploadFails, resp500])⟩

/-- Claim C5, counterexample: `Message.send` performs an HTTP call but does
not inspect the status code and prints nothing — on a 500 response it simply
returns the raw status code with an empty print trace, so not every in-repo
function wrapping an HTTP call reports success or failure. -/
theorem c5_counterexample :
    Message.send { channel := "C01", text := "hello" } "token" resp500 =
      (500, []) := rfl

/-- Claim C5 as amended: `upload_file_to_slack` and `post_summary_message`
each inspect the response status code and print a success or failure line,
but `Message.send` performs no status-code check and prints no message — it
returns the raw status code to its caller. -/
theorem c5_amended :
    (∀ (fn : String) (a : HttpAttempt),
      (upload_file_to_slack fn a).prints.length = 1 ∧
      (∀ r, a = .resp r →
        ((upload_file_to_slack fn a).file.isSome = true ↔
          (r.status_code = 200 ∧ r.ok = true)))) ∧
    (∀ a : HttpAttempt,
      (post_summary_message a).2.length = 1 ∧
      (∀ r, a = .resp r →
        ((post_summary_message a).1 = true ↔ (r.status_code = 200 ∧ r.ok = true)))) ∧
    (∀ (m : Message) (tok : String) (r : HttpResponse),
      Message.send m tok r = (r.status_code, [])) := by
  refine ⟨?_, ?_, fun m tok r => rfl⟩
  · intro fn a
    constructor
    · rcases a with e | r2
      · rfl
      · by_cases h200 : r2.status_code = 200
        · by_cases hok : r2.ok = true
          · simp [upload_file_to_slack, h200, hok]
          · simp [upload_file_to_slack, h200, hok]
        · simp [upload_file_to_slack, h200]
    · intro r hr
      cases hr
      by_cases h200 : r.status_code = 200
      · by_cases hok : r.ok = true
        · simp [upload_file_to_slack, h200, hok]
        · simp [upload_file_to_slack, h200, hok]
      · simp [upload_file_to_slack, h200]
  · intro a
    rcases a with e | r
    · exact ⟨rfl, fun r h => by cases h⟩
    · constructor
      · by_cases hc : r.status_code = 200 ∧ r.ok = true
        · simp [post_summary_message, hc]
        · simp [post_summary_message, hc]
      · intro r' hr'
        cases hr'
        by_cases hc : r.status_code = 200 ∧ r.ok = true
        · simp [post_summary_message, hc]
        · simp [post_summary_message, hc]

/-- Witness for Claim C5 (amended) at a concrete 500 response: the upload
returned value of the upload helper reflects the status check there. -/
theorem c5_amended_witness :
    (upload_file_to_slack "report.md" (HttpAttempt.resp resp500)).file.isSome = true ↔
      (resp500.status_code = 200 ∧ resp500.ok = true) :=
  (c5_amended.1 "report.md" (HttpAttempt.resp resp500)).2 resp500 rfl

/-- Every serialized block starts with its correct `type` tag. -/
theorem blockTagOk_true (b : Block) : blockTagOk b = true := by
  cases b <;> rfl

/-- The inlined JSON template of `PostIncidentAlert.get_command` agrees with
`Message.to_json` of `get_message()`, checked on a representative instance. -/
theorem piaMsgJsonPieces_matches_to_json :
    renderPieces (piaMsgJsonPieces piaExample) =
      Message.to_json (PostIncidentAlert.get_message piaExample) := rfl

/-- The inlined JSON template of `InvestigationProgress.get_command` agrees
with `Message.to_json` of `get_message()`, checked on a representative
instance. -/
theorem ipMsgJsonPieces_matches_to_json :
    renderPieces (ipMsgJsonPieces ipExample) =
      Message.to_json (InvestigationProgress.get_message ipExample) := rfl

/-- Claim C1 (code_bug): rendering does raise.  The `ButtonStyle` enum has no
member `DEFAULT` (blocks.py defines only `PRIMARY` and `DANGER`), so
`EscalationNotificationMessage.to_message` raises `AttributeError` on every
instance, `BackupStatusMessage.to_message` raises for the `"success"` and
`"failed"` statuses, and `HealthCheckStatusMessage.to_message` raises
`ZeroDivisionError` when `total_services = 0` and `AttributeError` for every
non-healthy overall status. -/
theorem c1_rendering_raises :
    ButtonStyle.attr "DEFAULT" = none ∧
    EscalationNotificationMessage.to_message escalationExample =
      .error (.attributeError "DEFAULT") ∧
    BackupStatusMessage.to_message backupSuccessExample =
      .error (.attributeError "DEFAULT") ∧
    BackupStatusMessage.to_message backupFailedExample =
      .error (.attributeError "DEFAULT") ∧
    HealthCheckStatusMessage.to_message healthZeroExample =
      .error .zeroDivisionError ∧
    HealthCheckStatusMessage.to_message healthDegradedExample =
      .error (.attributeError "DEFAULT") :=
  ⟨rfl, rfl, rfl, rfl, rfl, rfl⟩

/-- Claim C3, counterexample: the generated script is not well-formed shell
for every instance.  With a double quote in `incident_severity` the script of
`PostIncidentAlert.get_command` contains an unterminated quote, so no shell
grammar can parse it. -/
theorem c3_counterexample :
    shellQuotesClosed (PostIncidentAlert.get_command piaQuoteExample) = false := by
  rw [PostIncidentAlert.get_command, shellQuotesClosed, lexStr_renderPieces]
  decide

/-- Claim C3 as amended: for every instance whose fields contain no quote,
backslash or control characters, the scripts generated by
`PostIncidentAlert.get_command` and `InvestigationProgress.get_command` are
well formed at the shell quoting layer (every quote opened is terminated);
for fields containing a double quote this fails, so the unrestricted claim is
false. -/
theorem c3_amended :
    (∀ m : PostIncidentAlert, m.cleanFields = true →
      shellQuotesClosed (PostIncidentAlert.get_command m) = true) ∧
    (∀ m : InvestigationProgress, m.cleanFields = true →
      shellQuotesClosed (InvestigationProgress.get_command m) = true) := by
  constructor
  · intro m hm
    obtain ⟨h1, h2, h3, h4, h5, h6, h7, h8, h9, h10⟩ :
        cleanStr m.incident_id = true ∧ cleanStr m.incident_title = true ∧
        cleanStr m.incident_severity = true ∧ cleanStr m.incident_priority = true ∧
        cleanStr m.affected_services = true ∧ cleanStr m.incident_body = true ∧
        cleanStr m.incident_url = true ∧ cleanStr m.channel = true ∧
        cleanStr m.slack_token = true ∧ cleanStr m.output_file = true := by
      simpa [PostIncidentAlert.cleanFields, Bool.and_eq_true, and_assoc] using hm
    apply shellQuotesClosed_of_skel
    · simp only [PostIncidentAlert.cmdPieces, piaMsgJsonPieces, litsPres,
        List.all_append, List.all_cons, List.all_nil]
      decide
    · simp only [PostIncidentAlert.cmdPieces, piaMsgJsonPieces, fldsBenign,
        List.all_append, List.all_cons, List.all_nil]
      simp only [jsonEscapeString_clean m.channel h8,
        jsonEscapeString_clean m.incident_title h2,
        jsonEscapeString_clean m.incident_id h1,
        jsonEscapeString_clean m.incident_severity h3,
        jsonEscapeString_clean m.incident_priority h4,
        jsonEscapeString_clean m.affected_services h5,
        jsonEscapeString_clean m.incident_body h6,
        jsonEscapeString_clean m.incident_url h7]
      simp only [benignStr_of_clean m.incident_id h1, benignStr_of_clean m.incident_title h2,
        benignStr_of_clean m.incident_severity h3, benignStr_of_clean m.incident_priority h4,
        benignStr_of_clean m.affected_services h5, benignStr_of_clean m.incident_body h6,
        benignStr_of_clean m.incident_url h7, benignStr_of_clean m.channel h8,
        benignStr_of_clean m.slack_token h9, benignStr_of_clean m.output_file h10]
      simp
    · simp only [PostIncidentAlert.cmdPieces, piaMsgJsonPieces, List.map_append,
        List.map_cons, List.map_nil, SPiece.skel]
      decide
  · intro m hm
    obtain ⟨h1, h2, h3, h4, h5, h6, h7, h8⟩ :
        cleanStr m.channel = true ∧ cleanStr m.incident_id = true ∧
        cleanStr m.incident_title = true ∧ cleanStr m.incident_severity = true ∧
        cleanStr m.investigation_timeout = true ∧ cleanStr m.affected_services = true ∧
        cleanStr m.slack_token = true ∧ cleanStr m.output_file = true := by
      simpa [InvestigationProgress.cleanFields, Bool.and_eq_true, and_assoc] using hm
    apply shellQuotesClosed_of_skel
    · simp only [InvestigationProgress.cmdPieces, ipMsgJsonPieces, litsPres,
        List.all_append, List.all_cons, List.all_nil]
      decide
    · simp only [InvestigationProgress.cmdPieces, ipMsgJsonPieces, fldsBenign,
        List.all_append, List.all_cons, List.all_nil]
      simp only [jsonEscapeString_clean m.channel h1,
        jsonEscapeString_clean m.incident_title h3,
        jsonEscapeString_clean m.incident_id h2,
        jsonEscapeString_clean m.incident_severity h4,
        jsonEscapeString_clean m.affected_services h6]
      simp only [benignStr_of_clean m.channel h1, benignStr_of_clean m.incident_id h2,
        benignStr_of_clean m.incident_title h3, benignStr_of_clean m.incident_severity h4,
        benignStr_of_clean m.investigation_timeout h5,
        benignStr_of_clean m.affected_services h6,
        benignStr_of_clean m.slack_token h7, benignStr_of_clean m.output_file h8]
      simp
    · simp only [InvestigationProgress.cmdPieces, ipMsgJsonPieces, List.map_append,
        List.map_cons, List.map_nil, SPiece.skel]
      decide

/-- Witness for Claim C3 (amended) at representative clean instances. -/
theorem c3_amended_witness :
    shellQuotesClosed (PostIncidentAlert.get_command piaExample) = true ∧
    shellQuotesClosed (InvestigationProgress.get_command ipExample) = true :=
  ⟨c3_amended.1 piaExample (by decide), c3_amended.2 ipExample (by decide)⟩

/-- Claim C4, counterexample: the payload does not validate for every value
of the string fields.  A `DeploymentNotificationMessage` whose
`deployment_status` is 160 characters long renders a header block whose
plain_text text exceeds 150 characters. -/
theorem c4_counterexample :
    slackSchemaOk (DeploymentNotificationMessage.to_message deployLongStatusExample) =
      false := by
  decide

/-- Claim C4 as amended: every block of a rendered payload carries its
correct type tag, actions blocks stay within 25 elements and section field
arrays within 10 entries; the header-length bound holds for
`PostIncidentAlertMessage` for every value of the string fields (its header
is a fixed 44-character text, arbitrarily long incident titles go into
section blocks), and for `DeploymentNotificationMessage` exactly when the
interpolated `deployment_status` is short enough (at most 137 characters);
an over-long status breaks the 150-character header bound, so the
unrestricted claim is false. -/
theorem c4_amended :
    (∀ p : PostIncidentAlertMessage, slackSchemaOk p.to_message = true) ∧
    (∀ d : DeploymentNotificationMessage, d.deployment_status.length ≤ 137 →
      slackSchemaOk (d.to_message) = true) := by
  constructor
  · intro p
    rfl
  · intro d hlen
    have hsum : (deploymentStatusEmoji d.deployment_status).length +
        (" Deployment " : String).length + (titleCase d.deployment_status).length ≤ 150 := by
      have h12 : (" Deployment " : String).length = 12 := rfl
      rw [titleCase_length, deploymentStatusEmoji_length, h12]
      omega
    by_cases hc : d.deployment_status = "failed" ∧ d.rollback_available = true
    · simp only [DeploymentNotificationMessage.to_message, slackSchemaOk]
      rw [if_pos hc]
      simp only [Option.getD_some, List.all_append, List.all_cons, List.all_nil,
        blockTagOk_true, Bool.and_true, blockSchemaOk, List.length_cons,
        List.length_nil, Bool.and_eq_true, decide_eq_true_eq, String.length_append]
      exact ⟨⟨hsum, by omega⟩, by omega⟩
    · simp only [DeploymentNotificationMessage.to_message, slackSchemaOk]
      rw [if_neg hc]
      simp only [Option.getD_some, List.all_append, List.all_cons, List.all_nil,
        blockTagOk_true, Bool.and_true, blockSchemaOk, List.length_cons,
        List.length_nil, Bool.and_eq_true, decide_eq_true_eq, String.length_append]
      exact ⟨hsum, by omega⟩

/-- Witness for Claim C4 (amended) at a concrete short-status deployment
notification. -/
theorem c4_amended_witness :
    slackSchemaOk (DeploymentNotificationMessage.to_message
      { deployLongStatusExample with deployment_status := "failed" }) = true :=
  c4_amended.2 { deployLongStatusExample with deployment_status := "failed" }
    (by decide)

end WorkflowExamples
